import Mathlib

/-!
Verification development for the dual-annotator image-annotation editor.

The Python sources are shallowly embedded:
* normalized shape coordinates (Python floats) become exact rationals `ℚ`;
* pixel coordinates and image dimensions (Python ints) become `ℤ`;
* Python `int(...)` truncation toward zero becomes `pyInt`;
* Python `//` floor division becomes `Int.fdiv`;
* `uuid.uuid4()` id generation is modelled by a monotone counter `next_id`
  threaded through the canvas: each fresh id is the current counter value,
  so fresh ids are distinct from all previously generated ids;
* fallible operations return `α × Bool` mirroring the Python boolean results;
* mutation becomes explicit state passing on immutable records.

Sources embedded: `core/shape_base.py`, `core/annotation.py`,
`core/circle_shape.py`, `core/ellipse_shape.py`, `core/polygon_shape.py`
and the canvas interaction state machine of `gui/canvas.py`.
-/

namespace DualAnnotator

/-- Python `int(...)` applied to a float: truncation toward zero. -/
def pyInt (q : ℚ) : ℤ := if q < 0 then -(⌊-q⌋) else ⌊q⌋

@[simp] theorem pyInt_intCast (n : ℤ) : pyInt (n : ℚ) = n := by
  unfold pyInt
  split
  · rw [show (-(n:ℚ)) = ((-n : ℤ) : ℚ) by push_cast; ring, Int.floor_intCast]; omega
  · rw [Int.floor_intCast]

@[simp] theorem pyInt_natCast (n : ℕ) : pyInt (n : ℚ) = n := by
  have h := pyInt_intCast (n : ℤ)
  rw [Int.cast_natCast] at h
  rw [h]

@[simp] theorem pyInt_ofNat (n : ℕ) [n.AtLeastTwo] :
    pyInt (no_index (OfNat.ofNat n)) = OfNat.ofNat n := by
  have h := pyInt_intCast (OfNat.ofNat n : ℤ)
  rw [Int.cast_ofNat] at h
  rw [h]

@[simp] theorem pyInt_zero : pyInt 0 = 0 := by
  have h := pyInt_intCast 0; simpa using h

@[simp] theorem pyInt_one : pyInt 1 = 1 := by
  have h := pyInt_intCast 1; simpa using h

/-- Resize-handle names.  The Python code uses strings: the four corner
names shared by box/circle/ellipse, and `vertex_<i>` names for polygons;
`other` stands for any further unrecognized handle string. -/
inductive Handle where
  | top_left
  | top_right
  | bottom_left
  | bottom_right
  | vertex (i : ℕ)
  | other
deriving DecidableEq

/-! ### `core/annotation.py` — `BoundingBox` -/

/-- `BoundingBox` of `core/annotation.py`: a YOLO-style box with normalized
center/size, its own image dimensions, and the transient resize origin. -/
structure BoundingBox where
  id : ℕ
  class_id : Option ℕ := none
  x : ℚ := 0
  y : ℚ := 0
  width : ℚ := 0
  height : ℚ := 0
  image_width : ℤ := 1
  image_height : ℤ := 1
  selected : Bool := false
  resize_origin : Option (ℤ × ℤ × ℤ × ℤ) := none
deriving DecidableEq

namespace BoundingBox

/-- `BoundingBox.copy`: a fresh box is constructed from the geometry fields,
so `selected` and `_resize_origin` are reset to their constructor defaults;
the id is freshly generated (`new_id` is the uuid draw). -/
def copy (b : BoundingBox) (new_id : ℕ) : BoundingBox :=
  { id := new_id
    class_id := b.class_id
    x := b.x
    y := b.y
    width := b.width
    height := b.height
    image_width := b.image_width
    image_height := b.image_height
    selected := false
    resize_origin := none }

/-- `BoundingBox.from_pixels`. -/
def from_pixels (b : BoundingBox) (x1 y1 x2 y2 image_width image_height : ℤ) :
    BoundingBox :=
  let box_width : ℚ := |((x2 : ℚ)) - x1|
  let box_height : ℚ := |((y2 : ℚ)) - y1|
  let center_x : ℚ := ((x1 : ℚ) + x2) / 2
  let center_y : ℚ := ((y1 : ℚ) + y2) / 2
  { b with
    image_width := image_width
    image_height := image_height
    x := center_x / image_width
    y := center_y / image_height
    width := box_width / image_width
    height := box_height / image_height }

/-- `BoundingBox.to_pixels`. -/
def to_pixels (b : BoundingBox) : ℤ × ℤ × ℤ × ℤ :=
  let center_x : ℚ := b.x * b.image_width
  let center_y : ℚ := b.y * b.image_height
  let box_width : ℚ := b.width * b.image_width
  let box_height : ℚ := b.height * b.image_height
  (pyInt (center_x - box_width / 2), pyInt (center_y - box_height / 2),
   pyInt (center_x + box_width / 2), pyInt (center_y + box_height / 2))

/-- `BoundingBox.contains_point` (pixel coordinates). -/
def contains_point (b : BoundingBox) (px py : ℤ) : Bool :=
  let (x1, y1, x2, y2) := b.to_pixels
  if x1 ≤ px ∧ px ≤ x2 ∧ y1 ≤ py ∧ py ≤ y2 then true else false

/-- `BoundingBox.get_resize_handles`, in the insertion order of the
Python dict. -/
def get_resize_handles (b : BoundingBox) : List (Handle × ℤ × ℤ) :=
  let (x1, y1, x2, y2) := b.to_pixels
  [(Handle.top_left, x1, y1), (Handle.top_right, x2, y1),
   (Handle.bottom_left, x1, y2), (Handle.bottom_right, x2, y2)]

/-- `BoundingBox.begin_resize`: stores the pixel bounds as origin
(always returns true in the source). -/
def begin_resize (b : BoundingBox) : BoundingBox :=
  { b with resize_origin := some b.to_pixels }

end BoundingBox

/-- Lines 98-122 of `core/annotation.py` (also lines 59-79 of
`core/circle_shape.py`, 65-83 of `core/ellipse_shape.py`): starting from the
origin bounds `(left, top, right, bottom)`, apply the delta to the edges
named by the handle; `none` for an unrecognized handle. -/
def apply_handle (origin : ℤ × ℤ × ℤ × ℤ) (handle_name : Handle) (dx dy : ℤ) :
    Option (ℤ × ℤ × ℤ × ℤ) :=
  let (ox1, oy1, ox2, oy2) := origin
  match handle_name with
  | Handle.top_left => some (ox1 + dx, oy1 + dy, ox2, oy2)
  | Handle.top_right => some (ox1, oy1 + dy, ox2 + dx, oy2)
  | Handle.bottom_left => some (ox1 + dx, oy1, ox2, oy2 + dy)
  | Handle.bottom_right => some (ox1, oy1, ox2 + dx, oy2 + dy)
  | _ => none

/-- Inversion prevention (lines 124-130 of `core/annotation.py`, and the
identical lines in circle/ellipse): if `right ≤ left` force
`right = left + 1`, likewise for `bottom ≤ top`. -/
def fix_inversion (ltrb : ℤ × ℤ × ℤ × ℤ) : ℤ × ℤ × ℤ × ℤ :=
  let (left, top, right, bottom) := ltrb
  (left, top,
   if right ≤ left then left + 1 else right,
   if bottom ≤ top then top + 1 else bottom)

/-- Handle application followed by the inversion fix. -/
def raw_bounds (origin : ℤ × ℤ × ℤ × ℤ) (handle_name : Handle) (dx dy : ℤ) :
    Option (ℤ × ℤ × ℤ × ℤ) :=
  (apply_handle origin handle_name dx dy).map fix_inversion

/-- Lines 132-136 of `core/annotation.py`: clamp all four edges into
`[0, image_dimension - 1]` (box only; circle/ellipse do not clamp bounds). -/
def clamp_bounds (W H : ℤ) (ltrb : ℤ × ℤ × ℤ × ℤ) : ℤ × ℤ × ℤ × ℤ :=
  let (left, top, right, bottom) := ltrb
  (max 0 (min left (W - 1)), max 0 (min top (H - 1)),
   max 0 (min right (W - 1)), max 0 (min bottom (H - 1)))

/-- The pixel bounds computed by `BoundingBox.resize_from_handle`. -/
def box_resize_bounds (W H : ℤ) (origin : ℤ × ℤ × ℤ × ℤ) (handle_name : Handle)
    (dx dy : ℤ) : Option (ℤ × ℤ × ℤ × ℤ) :=
  (raw_bounds origin handle_name dx dy).map (clamp_bounds W H)

namespace BoundingBox

/-- `BoundingBox.resize_from_handle` (lines 87-156 of
`core/annotation.py`). -/
def resize_from_handle (b : BoundingBox) (handle_name : Handle) (dx dy : ℤ) :
    BoundingBox × Bool :=
  match b.resize_origin with
  | none => (b, false)
  | some origin =>
    match box_resize_bounds b.image_width b.image_height origin handle_name dx dy with
    | none => (b, false)
    | some (left, top, right, bottom) =>
      let new_center_x : ℚ := ((left : ℚ) + right) / 2
      let new_center_y : ℚ := ((top : ℚ) + bottom) / 2
      let new_width : ℚ := ((right : ℚ) - left)
      let new_height : ℚ := ((bottom : ℚ) - top)
      ({ b with
          x := new_center_x / b.image_width
          y := new_center_y / b.image_height
          width := new_width / b.image_width
          height := new_height / b.image_height }, true)

end BoundingBox

/-! ### `core/circle_shape.py` — `CircleShape` -/

/-- `CircleShape`: normalized center and radius (radius normalized against
`max(image_width, image_height)`). -/
structure CircleShape where
  id : ℕ
  class_id : Option ℕ := none
  center_x : ℚ := 0
  center_y : ℚ := 0
  radius : ℚ := 0
  image_width : ℤ := 1
  image_height : ℤ := 1
  selected : Bool := false
  resize_origin : Option (ℤ × ℤ × ℤ) := none
deriving DecidableEq

namespace CircleShape

/-- `Shape.copy` of `core/shape_base.py` applied to a circle: a shallow
`__dict__` copy keeps every field (including `selected` and the resize
origin) and only the id is freshly generated. -/
def copy (c : CircleShape) (new_id : ℕ) : CircleShape :=
  { c with id := new_id }

/-- `CircleShape.from_pixels`. -/
def from_pixels (c : CircleShape) (center_x center_y radius : ℤ) : CircleShape :=
  { c with
    center_x := (center_x : ℚ) / c.image_width
    center_y := (center_y : ℚ) / c.image_height
    radius := (radius : ℚ) / (max c.image_width c.image_height : ℤ) }

/-- `CircleShape.to_pixels`. -/
def to_pixels (c : CircleShape) : ℤ × ℤ × ℤ :=
  (pyInt (c.center_x * c.image_width), pyInt (c.center_y * c.image_height),
   pyInt (c.radius * (max c.image_width c.image_height : ℤ)))

/-- `CircleShape.contains_point`: the source compares
`math.sqrt((x-cx)^2 + (y-cy)^2) <= r`; over the reals this holds iff
`r ≥ 0` and `(x-cx)^2 + (y-cy)^2 ≤ r^2`, which is the exact form used
here. -/
def contains_point (c : CircleShape) (x y : ℤ) : Bool :=
  let (cx, cy, r) := c.to_pixels
  if 0 ≤ r ∧ (x - cx) * (x - cx) + (y - cy) * (y - cy) ≤ r * r then true else false

/-- `CircleShape.get_resize_handles`: four corner handles of the bounding
square, in dict insertion order. -/
def get_resize_handles (c : CircleShape) : List (Handle × ℤ × ℤ) :=
  let (cx, cy, r) := c.to_pixels
  [(Handle.top_left, cx - r, cy - r), (Handle.top_right, cx + r, cy - r),
   (Handle.bottom_left, cx - r, cy + r), (Handle.bottom_right, cx + r, cy + r)]

/-- `CircleShape.begin_resize`. -/
def begin_resize (c : CircleShape) : CircleShape :=
  { c with resize_origin := some c.to_pixels }

/-- `CircleShape.resize_from_handle` (lines 53-98 of
`core/circle_shape.py`): bounding-box resize anchored at the origin, then
the radius is clamped into `[5, min(W,H) // 2]`.  No bounds clamping. -/
def resize_from_handle (c : CircleShape) (handle_name : Handle) (dx dy : ℤ) :
    CircleShape × Bool :=
  match c.resize_origin with
  | none => (c, false)
  | some (ocx, ocy, orad) =>
    match raw_bounds (ocx - orad, ocy - orad, ocx + orad, ocy + orad)
        handle_name dx dy with
    | none => (c, false)
    | some (left, top, right, bottom) =>
      let new_cx : ℚ := ((left : ℚ) + right) / 2
      let new_cy : ℚ := ((top : ℚ) + bottom) / 2
      let new_r0 : ℚ := (min ((right : ℚ) - left) ((bottom : ℚ) - top)) / 2
      let min_radius : ℚ := 5
      let max_radius : ℚ := ((min c.image_width c.image_height).fdiv 2 : ℤ)
      let new_r : ℚ := max min_radius (min new_r0 max_radius)
      ({ c with
          center_x := new_cx / c.image_width
          center_y := new_cy / c.image_height
          radius := new_r / (max c.image_width c.image_height : ℤ) }, true)

end CircleShape

/-! ### `core/ellipse_shape.py` — `EllipseShape` -/

/-- `EllipseShape`: normalized center and per-axis radii. -/
structure EllipseShape where
  id : ℕ
  class_id : Option ℕ := none
  center_x : ℚ := 0
  center_y : ℚ := 0
  radius_x : ℚ := 0
  radius_y : ℚ := 0
  image_width : ℤ := 1
  image_height : ℤ := 1
  selected : Bool := false
  resize_origin : Option (ℤ × ℤ × ℤ × ℤ) := none
deriving DecidableEq

namespace EllipseShape

/-- `Shape.copy` applied to an ellipse: shallow dict copy, fresh id only. -/
def copy (e : EllipseShape) (new_id : ℕ) : EllipseShape :=
  { e with id := new_id }

/-- `EllipseShape.from_pixels`. -/
def from_pixels (e : EllipseShape) (center_x center_y radius_x radius_y : ℤ) :
    EllipseShape :=
  { e with
    center_x := (center_x : ℚ) / e.image_width
    center_y := (center_y : ℚ) / e.image_height
    radius_x := (radius_x : ℚ) / e.image_width
    radius_y := (radius_y : ℚ) / e.image_height }

/-- `EllipseShape.to_pixels`. -/
def to_pixels (e : EllipseShape) : ℤ × ℤ × ℤ × ℤ :=
  (pyInt (e.center_x * e.image_width), pyInt (e.center_y * e.image_height),
   pyInt (e.radius_x * e.image_width), pyInt (e.radius_y * e.image_height))

/-- `EllipseShape.contains_point`: the normalized ellipse equation,
exact over ℚ. -/
def contains_point (e : EllipseShape) (x y : ℤ) : Bool :=
  let (cx, cy, rx, ry) := e.to_pixels
  if rx = 0 ∨ ry = 0 then false
  else if (((x : ℚ) - cx) / rx) ^ 2 + (((y : ℚ) - cy) / ry) ^ 2 ≤ 1 then true
  else false

/-- `EllipseShape.get_resize_handles`. -/
def get_resize_handles (e : EllipseShape) : List (Handle × ℤ × ℤ) :=
  let (cx, cy, rx, ry) := e.to_pixels
  [(Handle.top_left, cx - rx, cy - ry), (Handle.top_right, cx + rx, cy - ry),
   (Handle.bottom_left, cx - rx, cy + ry), (Handle.bottom_right, cx + rx, cy + ry)]

/-- `EllipseShape.begin_resize`. -/
def begin_resize (e : EllipseShape) : EllipseShape :=
  { e with resize_origin := some e.to_pixels }

/-- `EllipseShape.resize_from_handle` (lines 59-107 of
`core/ellipse_shape.py`): per-axis radii clamped into
`[5, image_dimension // 2]`.  No bounds clamping. -/
def resize_from_handle (e : EllipseShape) (handle_name : Handle) (dx dy : ℤ) :
    EllipseShape × Bool :=
  match e.resize_origin with
  | none => (e, false)
  | some (ocx, ocy, orx, ory) =>
    match raw_bounds (ocx - orx, ocy - ory, ocx + orx, ocy + ory)
        handle_name dx dy with
    | none => (e, false)
    | some (left, top, right, bottom) =>
      let new_cx : ℚ := ((left : ℚ) + right) / 2
      let new_cy : ℚ := ((top : ℚ) + bottom) / 2
      let new_rx0 : ℚ := ((right : ℚ) - left) / 2
      let new_ry0 : ℚ := ((bottom : ℚ) - top) / 2
      let min_size : ℚ := 5
      let max_rx : ℚ := (e.image_width.fdiv 2 : ℤ)
      let max_ry : ℚ := (e.image_height.fdiv 2 : ℤ)
      let new_rx : ℚ := max min_size (min new_rx0 max_rx)
      let new_ry : ℚ := max min_size (min new_ry0 max_ry)
      ({ e with
          center_x := new_cx / e.image_width
          center_y := new_cy / e.image_height
          radius_x := new_rx / e.image_width
          radius_y := new_ry / e.image_height }, true)

end EllipseShape

/-! ### `core/polygon_shape.py` — `PolygonShape` -/

/-- `PolygonShape`: normalized vertex list and a closed flag.  The Python
class defines no `begin_resize` and no `_resize_origin`. -/
structure PolygonShape where
  id : ℕ
  class_id : Option ℕ := none
  points : List (ℚ × ℚ) := []
  closed : Bool := false
  image_width : ℤ := 1
  image_height : ℤ := 1
  selected : Bool := false
deriving DecidableEq

namespace PolygonShape

/-- `Shape.copy` applied to a polygon: shallow dict copy, fresh id only. -/
def copy (p : PolygonShape) (new_id : ℕ) : PolygonShape :=
  { p with id := new_id }

/-- `PolygonShape.from_pixel_points`. -/
def from_pixel_points (p : PolygonShape) (pixel_points : List (ℤ × ℤ)) :
    PolygonShape :=
  { p with
    points := pixel_points.map (fun q =>
      ((q.1 : ℚ) / p.image_width, (q.2 : ℚ) / p.image_height)) }

/-- `PolygonShape.to_pixel_points`. -/
def to_pixel_points (p : PolygonShape) : List (ℤ × ℤ) :=
  p.points.map (fun q => (pyInt (q.1 * p.image_width), pyInt (q.2 * p.image_height)))

/-- One iteration of the ray-casting loop of
`PolygonShape.contains_point`.  The stale-`xinters` branch of the Python
code (`p1y == p2y` with `p1x != p2x`) is unreachable because the outer
conditions force `p1y != p2y`; here `xinters` is computed with total
division, which agrees on every reachable case. -/
def ray_cast_step (x y : ℤ) (p1 p2 : ℤ × ℤ) (inside : Bool) : Bool :=
  if y > min p1.2 p2.2 ∧ y ≤ max p1.2 p2.2 ∧ x ≤ max p1.1 p2.1 then
    let xinters : ℚ :=
      ((y : ℚ) - p1.2) * ((p2.1 : ℚ) - p1.1) / ((p2.2 : ℚ) - p1.2) + p1.1
    if p1.1 = p2.1 ∨ (x : ℚ) ≤ xinters then !inside else inside
  else inside

/-- The ray-casting loop: edges `(p_i, p_(i+1))` and the closing edge back
to the first vertex. -/
def ray_cast_loop (x y : ℤ) (first : ℤ × ℤ) : (ℤ × ℤ) → List (ℤ × ℤ) → Bool → Bool
  | p1, [], inside => ray_cast_step x y p1 first inside
  | p1, p2 :: rest, inside => ray_cast_loop x y first p2 rest (ray_cast_step x y p1 p2 inside)

/-- `PolygonShape.contains_point`: false unless closed with ≥ 3 points,
else the even-odd ray-casting rule over pixel vertices. -/
def contains_point (p : PolygonShape) (x y : ℤ) : Bool :=
  if ¬ p.closed ∨ p.points.length < 3 then false
  else
    match p.to_pixel_points with
    | [] => false
    | p0 :: rest => ray_cast_loop x y p0 p0 rest false

/-- `PolygonShape.get_resize_handles`: one handle per vertex. -/
def get_resize_handles (p : PolygonShape) : List (Handle × ℤ × ℤ) :=
  (p.to_pixel_points.enum).map (fun q => (Handle.vertex q.1, q.2.1, q.2.2))

/-- `PolygonShape.resize_from_handle` (lines 76-87 of
`core/polygon_shape.py`): moves one vertex by the normalized delta.  Note
there is no resize-origin check of any kind. -/
def resize_from_handle (p : PolygonShape) (handle_name : Handle) (dx dy : ℤ) :
    PolygonShape × Bool :=
  match handle_name with
  | Handle.vertex idx =>
    match p.points.get? idx with
    | some q =>
      ({ p with points := (p.points.set idx (q.1 + (dx : ℚ) / p.image_width, q.2 + (dy : ℚ) / p.image_height)) }, true)
    | none => (p, false)
  | _ => (p, false)

/-- `PolygonShape.move`. -/
def move (p : PolygonShape) (dx dy : ℚ) : PolygonShape :=
  { p with points := p.points.map (fun q => (q.1 + dx, q.2 + dy)) }

end PolygonShape

/-! ### The polymorphic shape set -/

/-- The closed variant set of annotation shapes handled by the canvas. -/
inductive Shape where
  | box : BoundingBox → Shape
  | circle : CircleShape → Shape
  | ellipse : EllipseShape → Shape
  | polygon : PolygonShape → Shape
deriving DecidableEq

namespace Shape

/-- The shape's id. -/
def id : Shape → ℕ
  | box b => b.id
  | circle c => c.id
  | ellipse e => e.id
  | polygon p => p.id

/-- The shape's `selected` flag. -/
def selected : Shape → Bool
  | box b => b.selected
  | circle c => c.selected
  | ellipse e => e.selected
  | polygon p => p.selected

/-- Assign the `selected` flag. -/
def set_selected : Shape → Bool → Shape
  | box b, v => box { b with selected := v }
  | circle c, v => circle { c with selected := v }
  | ellipse e, v => ellipse { e with selected := v }
  | polygon p, v => polygon { p with selected := v }

/-- `copy()` dispatch: `BoundingBox.copy` builds a fresh box, the `Shape`
subclasses use the shallow `__dict__` copy of `core/shape_base.py`; in
every case the id is freshly generated (`new_id` is the uuid draw). -/
def copy : Shape → ℕ → Shape
  | box b, n => box (b.copy n)
  | circle c, n => circle (c.copy n)
  | ellipse e, n => ellipse (e.copy n)
  | polygon p, n => polygon (p.copy n)

/-- `contains_point` dispatch (pixel coordinates). -/
def contains_point : Shape → ℤ → ℤ → Bool
  | box b, x, y => b.contains_point x y
  | circle c, x, y => c.contains_point x y
  | ellipse e, x, y => e.contains_point x y
  | polygon p, x, y => p.contains_point x y

/-- `get_resize_handles` dispatch. -/
def get_resize_handles : Shape → List (Handle × ℤ × ℤ)
  | box b => b.get_resize_handles
  | circle c => c.get_resize_handles
  | ellipse e => e.get_resize_handles
  | polygon p => p.get_resize_handles

/-- `begin_resize` as invoked by the canvas: guarded by
`hasattr(shape, 'begin_resize')`, so a polygon (which defines none) is
left untouched. -/
def begin_resize : Shape → Shape
  | box b => box b.begin_resize
  | circle c => circle c.begin_resize
  | ellipse e => ellipse e.begin_resize
  | polygon p => polygon p

/-- Clearing `_resize_origin` on release, guarded by
`hasattr(shape, '_resize_origin')`; polygons have no such attribute. -/
def clear_resize_origin : Shape → Shape
  | box b => box { b with resize_origin := none }
  | circle c => circle { c with resize_origin := none }
  | ellipse e => ellipse { e with resize_origin := none }
  | polygon p => polygon p

/-- `resize_from_handle` dispatch. -/
def resize_from_handle : Shape → Handle → ℤ → ℤ → Shape × Bool
  | box b, h, dx, dy =>
    let r := b.resize_from_handle h dx dy
    (box r.1, r.2)
  | circle c, h, dx, dy =>
    let r := c.resize_from_handle h dx dy
    (circle r.1, r.2)
  | ellipse e, h, dx, dy =>
    let r := e.resize_from_handle h dx dy
    (ellipse r.1, r.2)
  | polygon p, h, dx, dy =>
    let r := p.resize_from_handle h dx dy
    (polygon r.1, r.2)

end Shape

/-! ### `to_dict` serialization -/

/-- Values of the tagged-record dictionaries produced by `to_dict`. -/
inductive DVal where
  | nat : ℕ → DVal
  | str : String → DVal
  | rat : ℚ → DVal
  | opt : Option ℕ → DVal
  | pts : List (ℚ × ℚ) → DVal
  | bool : Bool → DVal
deriving DecidableEq

/-- `BoundingBox.to_dict`, key order as in the source. -/
def BoundingBox.to_dict (b : BoundingBox) : List (String × DVal) :=
  [("id", DVal.nat b.id), ("type", DVal.str "box"), ("class_id", DVal.opt b.class_id),
   ("x", DVal.rat b.x), ("y", DVal.rat b.y),
   ("width", DVal.rat b.width), ("height", DVal.rat b.height)]

/-- `CircleShape.to_dict`. -/
def CircleShape.to_dict (c : CircleShape) : List (String × DVal) :=
  [("id", DVal.nat c.id), ("type", DVal.str "circle"), ("class_id", DVal.opt c.class_id),
   ("center_x", DVal.rat c.center_x), ("center_y", DVal.rat c.center_y),
   ("radius", DVal.rat c.radius)]

/-- `EllipseShape.to_dict`. -/
def EllipseShape.to_dict (e : EllipseShape) : List (String × DVal) :=
  [("id", DVal.nat e.id), ("type", DVal.str "ellipse"), ("class_id", DVal.opt e.class_id),
   ("center_x", DVal.rat e.center_x), ("center_y", DVal.rat e.center_y),
   ("radius_x", DVal.rat e.radius_x), ("radius_y", DVal.rat e.radius_y)]

/-- `PolygonShape.to_dict`. -/
def PolygonShape.to_dict (p : PolygonShape) : List (String × DVal) :=
  [("id", DVal.nat p.id), ("type", DVal.str "polygon"), ("class_id", DVal.opt p.class_id),
   ("points", DVal.pts p.points), ("closed", DVal.bool p.closed)]

/-- `to_dict` dispatch. -/
def Shape.to_dict : Shape → List (String × DVal)
  | Shape.box b => b.to_dict
  | Shape.circle c => c.to_dict
  | Shape.ellipse e => e.to_dict
  | Shape.polygon p => p.to_dict

/-- Normalizer used to compare collections up to the fields regenerated or
reset by `copy()`: the id, the `selected` flag and the transient resize
origin are erased, all persistent geometry is kept. -/
def Shape.strip : Shape → Shape
  | Shape.box b => Shape.box { b with id := 0, selected := false, resize_origin := none }
  | Shape.circle c => Shape.circle { c with id := 0, selected := false, resize_origin := none }
  | Shape.ellipse e => Shape.ellipse { e with id := 0, selected := false, resize_origin := none }
  | Shape.polygon p => Shape.polygon { p with id := 0, selected := false }

/-! ### `gui/canvas.py` — the interaction state machine

Python object references into the live shape list (`selected_shape`,
`original_shape`, `drag_copy_shape`, `paste_shape`) are modelled as indices
into `shapes`; `None` becomes `none`.  The class manager is abstracted to
the current class id (`current_class`), and the loaded pixmap to the flag
`image_loaded` plus the stored image dimensions. -/

structure Canvas where
  shapes : List Shape := []
  selected_shape : Option ℕ := none
  undo_stack : List (List Shape) := []
  redo_stack : List (List Shape) := []
  max_stack_size : ℕ := 50
  next_id : ℕ := 0
  image_loaded : Bool := true
  image_width : ℤ := 0
  image_height : ℤ := 0
  scale : ℚ := 1
  offset_x : ℚ := 0
  offset_y : ℚ := 0
  handle_size : ℤ := 8
  current_class : Option ℕ := none
  current_shape_type : String := "box"
  pan_mode : Bool := false
  dragging : Bool := false
  last_mouse_pos : Option (ℤ × ℤ) := none
  drawing : Bool := false
  start_point : Option (ℤ × ℤ) := none
  current_shape : Option BoundingBox := none
  moving : Bool := false
  move_start_pos : Option (ℤ × ℤ) := none
  move_original_positions : List (ℚ × ℚ) := []
  resizing : Bool := false
  resizing_handle : Option Handle := none
  resize_start_pos : Option (ℤ × ℤ) := none
  drag_copy : Bool := false
  drag_copy_shape : Option ℕ := none
  drag_start_pos : Option (ℤ × ℤ) := none
  original_shape : Option ℕ := none
  clipboard_shape : Option Shape := none
  pasting : Bool := false
  paste_shape : Option ℕ := none
  polygon_points : List (ℤ × ℤ) := []
  circle_center : Option (ℤ × ℤ) := none
  circle_radius : ℤ := 0
  ellipse_center : Option (ℤ × ℤ) := none
  ellipse_radius_x : ℤ := 0
  ellipse_radius_y : ℤ := 0
deriving DecidableEq

namespace Canvas

/-- `widget_to_image` (lines 906-919): affine view transform inverse,
truncated to integer and clamped to the image rectangle. -/
def widget_to_image (c : Canvas) (pos : ℤ × ℤ) : ℤ × ℤ :=
  if ¬ c.image_loaded then (0, 0)
  else
    (max 0 (min (c.image_width - 1) (pyInt (((pos.1 : ℚ) - c.offset_x) / c.scale))),
     max 0 (min (c.image_height - 1) (pyInt (((pos.2 : ℚ) - c.offset_y) / c.scale))))

/-- The `for shape in reversed(self.shapes)` hit-testing scan: index of the
last (topmost) shape containing the point. -/
def find_last_hit : List Shape → ℤ → ℤ → Option ℕ
  | [], _, _ => none
  | s :: rest, x, y =>
    match find_last_hit rest x y with
    | some i => some (i + 1)
    | none => if s.contains_point x y then some 0 else none

/-- Number of shapes currently flagged `selected`. -/
def selected_count (c : Canvas) : ℕ := (c.shapes.filter Shape.selected).length

/-- `save_state` (lines 1442-1454): push a collection of `copy()`s of the
live shapes (fresh ids!) onto the undo stack, evict the oldest entry past
the bound, clear the redo stack.  The stack top is the list head here;
Python appends and pops at the list tail, which is order-isomorphic. -/
def copy_shapes : List Shape → ℕ → List Shape × ℕ
  | [], n => ([], n)
  | s :: rest, n =>
    let r := copy_shapes rest (n + 1)
    (s.copy n :: r.1, r.2)

def save_state (c : Canvas) : Canvas :=
  let st := copy_shapes c.shapes c.next_id
  let stack := st.1 :: c.undo_stack
  { c with
    undo_stack := if stack.length > c.max_stack_size then stack.dropLast else stack
    redo_stack := []
    next_id := st.2 }

/-- `undo` (lines 1456-1475): failure on empty stack; else push a copy of
the current collection onto redo, pop the undo stack into the live
collection, clear the selection. -/
def undo (c : Canvas) : Canvas × Bool :=
  match c.undo_stack with
  | [] => (c, false)
  | st :: rest =>
    let cur := copy_shapes c.shapes c.next_id
    ({ c with
        redo_stack := cur.1 :: c.redo_stack
        undo_stack := rest
        shapes := st
        selected_shape := none
        next_id := cur.2 }, true)

/-- `redo` (lines 1477-1496), symmetric to `undo` (no bound check on the
undo push, as in the source). -/
def redo (c : Canvas) : Canvas × Bool :=
  match c.redo_stack with
  | [] => (c, false)
  | st :: rest =>
    let cur := copy_shapes c.shapes c.next_id
    ({ c with
        undo_stack := cur.1 :: c.undo_stack
        redo_stack := rest
        shapes := st
        selected_shape := none
        next_id := cur.2 }, true)

/-- `force_reset_for_drawing` (lines 1247-1257). -/
def force_reset_for_drawing (c : Canvas) : Canvas :=
  { c with
    drawing := false
    drag_copy := false
    drag_copy_shape := none
    resizing := false
    resizing_handle := none
    pasting := false
    paste_shape := none }

/-- `start_drawing` (lines 179-195): box tool only; requires a current
class; the new in-progress `BoundingBox()` draws a fresh uuid. -/
def start_drawing (c : Canvas) (pos : ℤ × ℤ) : Canvas :=
  let c := c.force_reset_for_drawing
  if c.current_class.isSome then
    if c.current_shape_type = "box" then
      { c with
        drawing := true
        start_point := some (c.widget_to_image pos)
        current_shape := some { id := c.next_id, image_width := c.image_width, image_height := c.image_height }
        next_id := c.next_id + 1 }
    else c
  else c

/-- `update_drawing` (lines 197-212). -/
def update_drawing (c : Canvas) (pos : ℤ × ℤ) : Canvas :=
  if c.drawing then
    match c.start_point, c.current_shape with
    | some sp, some s =>
      let cur := c.widget_to_image pos
      let x1 := min sp.1 cur.1
      let y1 := min sp.2 cur.2
      let x2 := max sp.1 cur.1
      let y2 := max sp.2 cur.2
      { c with current_shape := some (s.from_pixels x1 y1 x2 y2 c.image_width c.image_height) }
    | _, _ => c
  else c

/-- `finish_drawing` (lines 214-229): assign the class id, `save_state`
(before appending!), append the new box; reset the drawing state. -/
def finish_drawing (c : Canvas) : Canvas :=
  let c1 :=
    if c.drawing then
      match c.current_shape, c.current_class with
      | some s, some cls =>
        let c2 := c.save_state
        { c2 with shapes := c2.shapes ++ [Shape.box { s with class_id := some cls }] }
      | _, _ => c
    else c
  { c1 with drawing := false, start_point := none, current_shape := none }

/-- `select_shape` (lines 231-264): deselect all shapes, then select the
topmost shape containing the click. -/
def select_shape (c : Canvas) (pos : ℤ × ℤ) : Canvas :=
  match c.shapes with
  | [] => { c with selected_shape := none }
  | _ :: _ =>
    let shapes := c.shapes.map (fun s => s.set_selected false)
    let p := c.widget_to_image pos
    match find_last_hit shapes p.1 p.2 with
    | some i =>
      match shapes.get? i with
      | some s =>
        { c with shapes := shapes.set i (s.set_selected true), selected_shape := some i }
      | none => { c with shapes := shapes, selected_shape := none }
    | none => { c with shapes := shapes, selected_shape := none }

/-- `delete_selected` (lines 266-274): `save_state` then remove the
selected shape. -/
def delete_selected (c : Canvas) : Canvas :=
  match c.selected_shape with
  | none => c
  | some i =>
    let c2 := c.save_state
    { c2 with shapes := c2.shapes.eraseIdx i, selected_shape := none }

/-- `start_move` (lines 927-946). -/
def start_move (c : Canvas) (i : ℕ) (pos : ℤ × ℤ) : Canvas :=
  match c.shapes.get? i with
  | none => c
  | some s =>
    if ¬ s.selected then c
    else
      { c with
        moving := true
        selected_shape := some i
        move_start_pos := some (c.widget_to_image pos)
        move_original_positions :=
          match s with
          | Shape.box b => [(b.x, b.y)]
          | Shape.circle k => [(k.center_x, k.center_y)]
          | Shape.ellipse e => [(e.center_x, e.center_y)]
          | Shape.polygon p => p.points }

/-- The per-type translation of `update_move` (lines 948-971). -/
def move_by (s : Shape) (dx dy : ℚ) : Shape :=
  match s with
  | Shape.box b => Shape.box { b with x := b.x + dx, y := b.y + dy }
  | Shape.circle k => Shape.circle { k with center_x := k.center_x + dx, center_y := k.center_y + dy }
  | Shape.ellipse e => Shape.ellipse { e with center_x := e.center_x + dx, center_y := e.center_y + dy }
  | Shape.polygon p => Shape.polygon (p.move dx dy)

/-- `update_move`: translate the selected shape by the normalized delta and
re-anchor the gesture at the current position. -/
def update_move (c : Canvas) (pos : ℤ × ℤ) : Canvas :=
  if ¬ c.moving then c
  else
    match c.selected_shape with
    | none => c
    | some i =>
      match c.move_start_pos, c.shapes.get? i with
      | some sp, some s =>
        let cur := c.widget_to_image pos
        let dx : ℚ := ((cur.1 : ℚ) - sp.1) / c.image_width
        let dy : ℚ := ((cur.2 : ℚ) - sp.2) / c.image_height
        { c with
          shapes := c.shapes.set i (move_by s dx dy)
          move_start_pos := some cur }
      | _, _ => c

/-- `finish_move` (lines 973-983): `save_state` is called after the move
has already been applied in place. -/
def finish_move (c : Canvas) : Canvas :=
  let c1 := if c.moving ∧ c.selected_shape.isSome then c.save_state else c
  { c1 with moving := false, move_start_pos := none, move_original_positions := [] }

/-- `copy_selected` (lines 1004-1013): value copy with fresh id into the
single-slot clipboard. -/
def copy_selected (c : Canvas) : Canvas × Bool :=
  match c.selected_shape with
  | some i =>
    match c.shapes.get? i with
    | some s =>
      ({ c with clipboard_shape := some (s.copy c.next_id), next_id := c.next_id + 1 }, true)
    | none => (c, false)
  | none => (c, false)

/-- `start_drag_copy` (lines 1147-1169): clone the clicked shape (the clone
keeps the original's `selected` flag at copy time for circle, ellipse and
polygon), deselect the clicked original, append the clone, select it.
Any other shape that was selected is left untouched. -/
def start_drag_copy (c : Canvas) (i : ℕ) (pos : ℤ × ℤ) : Canvas :=
  match c.shapes.get? i with
  | none => c
  | some s =>
    let cpy := s.copy c.next_id
    let shapes := c.shapes.set i (s.set_selected false)
    { c with
      shapes := shapes ++ [cpy.set_selected true]
      drag_copy := true
      original_shape := some i
      drag_start_pos := some (c.widget_to_image pos)
      drag_copy_shape := some c.shapes.length
      selected_shape := some c.shapes.length
      next_id := c.next_id + 1 }

/-- `update_drag_copy` (lines 1171-1193). -/
def update_drag_copy (c : Canvas) (pos : ℤ × ℤ) : Canvas :=
  if c.drag_copy then
    match c.drag_copy_shape with
    | none => c
    | some i =>
      match c.shapes.get? i with
      | none => c
      | some s =>
        let p := c.widget_to_image pos
        match s with
        | Shape.box b =>
          { c with shapes := c.shapes.set i (Shape.box { b with x := (p.1 : ℚ) / c.image_width, y := (p.2 : ℚ) / c.image_height }) }
        | Shape.circle k =>
          { c with shapes := c.shapes.set i (Shape.circle { k with center_x := (p.1 : ℚ) / c.image_width, center_y := (p.2 : ℚ) / c.image_height }) }
        | Shape.ellipse e =>
          { c with shapes := c.shapes.set i (Shape.ellipse { e with center_x := (p.1 : ℚ) / c.image_width, center_y := (p.2 : ℚ) / c.image_height }) }
        | Shape.polygon q =>
          match c.drag_start_pos with
          | none => c
          | some sp =>
            let dx : ℚ := ((p.1 : ℚ) - sp.1) / c.image_width
            let dy : ℚ := ((p.2 : ℚ) - sp.2) / c.image_height
            { c with
              shapes := c.shapes.set i (Shape.polygon (q.move dx dy))
              drag_start_pos := some p }
  else c

/-- `finish_drag_copy` (lines 1195-1207): `save_state` after the clone was
already inserted and positioned. -/
def finish_drag_copy (c : Canvas) : Canvas × Bool :=
  if c.drag_copy ∧ c.drag_copy_shape.isSome then
    let c2 := c.save_state
    ({ c2 with
        drag_copy := false
        drag_copy_shape := none
        drag_start_pos := none
        original_shape := none
        resizing := false }, true)
  else (c, false)

end Canvas

namespace Canvas

/-- `cancel_drag_copy` (lines 1209-1239): remove the clone, restore the
original's selection. -/
def cancel_drag_copy (c : Canvas) : Canvas × Bool :=
  if c.drag_copy ∧ c.drag_copy_shape.isSome then
    let c1 :=
      match c.drag_copy_shape with
      | some i => { c with shapes := c.shapes.eraseIdx i }
      | none => c
    let c2 :=
      match c.original_shape with
      | some j =>
        match c1.shapes.get? j with
        | some s => { c1 with shapes := c1.shapes.set j (s.set_selected true), selected_shape := some j }
        | none => { c1 with selected_shape := none }
      | none => { c1 with selected_shape := none }
    ({ c2 with
        drag_copy := false
        drag_copy_shape := none
        drag_start_pos := none
        original_shape := none
        resizing := false
        resizing_handle := none
        pasting := false }, true)
  else (c, false)

/-- `start_paste` (lines 1015-1066): clone the clipboard shape, center it
at the cursor, deselect the current selection, select and append the
provisional clone. -/
def start_paste (c : Canvas) (pos : ℤ × ℤ) : Canvas × Bool :=
  match c.clipboard_shape with
  | none => (c, false)
  | some clip =>
    let ps := clip.copy c.next_id
    let p := c.widget_to_image pos
    let ps :=
      match ps with
      | Shape.box b => Shape.box { b with x := (p.1 : ℚ) / c.image_width, y := (p.2 : ℚ) / c.image_height }
      | Shape.circle k => Shape.circle { k with center_x := (p.1 : ℚ) / c.image_width, center_y := (p.2 : ℚ) / c.image_height }
      | Shape.ellipse e => Shape.ellipse { e with center_x := (p.1 : ℚ) / c.image_width, center_y := (p.2 : ℚ) / c.image_height }
      | Shape.polygon q =>
        match q.points with
        | [] => Shape.polygon q
        | _ :: _ =>
          let n : ℚ := q.points.length
          let cx := (q.points.map Prod.fst).sum / n
          let cy := (q.points.map Prod.snd).sum / n
          Shape.polygon (q.move ((p.1 : ℚ) / c.image_width - cx) ((p.2 : ℚ) / c.image_height - cy))
    let c1 :=
      match c.selected_shape with
      | some i =>
        match c.shapes.get? i with
        | some s => { c with shapes := c.shapes.set i (s.set_selected false), selected_shape := none }
        | none => { c with selected_shape := none }
      | none => c
    ({ c1 with
        shapes := c1.shapes ++ [ps.set_selected true]
        selected_shape := some c1.shapes.length
        paste_shape := some c1.shapes.length
        pasting := true
        next_id := c.next_id + 1 }, true)

/-- `confirm_paste` (lines 1099-1109): no undo snapshot is pushed. -/
def confirm_paste (c : Canvas) : Canvas × Bool :=
  if c.pasting ∧ c.paste_shape.isSome then
    ({ c with pasting := false, resizing_handle := none }, true)
  else (c, false)

/-- `cancel_paste` (lines 1111-1124): remove the provisional clone. -/
def cancel_paste (c : Canvas) : Canvas × Bool :=
  if c.pasting then
    let c1 :=
      match c.paste_shape with
      | some i => { c with shapes := c.shapes.eraseIdx i }
      | none => c
    ({ c1 with
        pasting := false
        paste_shape := none
        resizing_handle := none
        selected_shape := none }, true)
  else (c, false)

/-- `get_resize_handle_at_pos` (lines 1126-1145): only on the selected
shape; scans the handle dict in order and returns the first handle whose
widget-space square (half `handle_size` on each side) contains the raw
pointer position. -/
def find_handle (c : Canvas) (pos : ℤ × ℤ) : List (Handle × ℤ × ℤ) → Option Handle
  | [] => none
  | (h, hx, hy) :: rest =>
    let half := c.handle_size.fdiv 2
    let wx := pyInt ((hx : ℚ) * c.scale + c.offset_x)
    let wy := pyInt ((hy : ℚ) * c.scale + c.offset_y)
    if wx - half ≤ pos.1 ∧ pos.1 ≤ wx + half ∧ wy - half ≤ pos.2 ∧ pos.2 ≤ wy + half
    then some h
    else find_handle c pos rest

def get_resize_handle_at_pos (c : Canvas) (pos : ℤ × ℤ) (s : Shape) : Option Handle :=
  if ¬ s.selected then none
  else find_handle c pos s.get_resize_handles

/-- `start_circle_drawing` (lines 1325-1330). -/
def start_circle_drawing (c : Canvas) (pos : ℤ × ℤ) : Canvas :=
  if c.current_class.isSome then
    { c with circle_center := some (c.widget_to_image pos), circle_radius := 0 }
  else c

/-- Integer square root, modelling `int(math.sqrt(n))` on a nonnegative
integer (exact on the perfect squares arising in the traces below). -/
def int_sqrt (n : ℤ) : ℤ := (Nat.sqrt n.toNat : ℤ)

/-- `update_circle_drawing` (lines 1332-1339). -/
def update_circle_drawing (c : Canvas) (pos : ℤ × ℤ) : Canvas :=
  match c.circle_center with
  | none => c
  | some ctr =>
    let cur := c.widget_to_image pos
    let dx := cur.1 - ctr.1
    let dy := cur.2 - ctr.2
    { c with circle_radius := int_sqrt (dx * dx + dy * dy) }

/-- `finish_circle` (lines 1341-1361): requires radius > 5 and a current
class; constructs the circle (fresh uuid), `save_state` before
appending. -/
def finish_circle (c : Canvas) : Canvas :=
  let c1 :=
    match c.circle_center, c.current_class with
    | some ctr, some cls =>
      if c.circle_radius > 5 then
        let circ : CircleShape :=
          { id := c.next_id, class_id := some cls, image_width := c.image_width, image_height := c.image_height }
        let circ := circ.from_pixels ctr.1 ctr.2 c.circle_radius
        let c2 := { c with next_id := c.next_id + 1 }.save_state
        { c2 with shapes := c2.shapes ++ [Shape.circle circ] }
      else c
    | _, _ => c
  { c1 with circle_center := none, circle_radius := 0 }

/-- `start_ellipse_drawing` (lines 1370-1376). -/
def start_ellipse_drawing (c : Canvas) (pos : ℤ × ℤ) : Canvas :=
  if c.current_class.isSome then
    { c with ellipse_center := some (c.widget_to_image pos), ellipse_radius_x := 0, ellipse_radius_y := 0 }
  else c

/-- `update_ellipse_drawing` (lines 1378-1386). -/
def update_ellipse_drawing (c : Canvas) (pos : ℤ × ℤ) : Canvas :=
  match c.ellipse_center with
  | none => c
  | some ctr =>
    let cur := c.widget_to_image pos
    { c with ellipse_radius_x := |cur.1 - ctr.1|, ellipse_radius_y := |cur.2 - ctr.2| }

/-- `finish_ellipse` (lines 1388-1410). -/
def finish_ellipse (c : Canvas) : Canvas :=
  let c1 :=
    match c.ellipse_center, c.current_class with
    | some ctr, some cls =>
      if c.ellipse_radius_x > 5 ∧ c.ellipse_radius_y > 5 then
        let el : EllipseShape :=
          { id := c.next_id, class_id := some cls, image_width := c.image_width, image_height := c.image_height }
        let el := el.from_pixels ctr.1 ctr.2 c.ellipse_radius_x c.ellipse_radius_y
        let c2 := { c with next_id := c.next_id + 1 }.save_state
        { c2 with shapes := c2.shapes ++ [Shape.ellipse el] }
      else c
    | _, _ => c
  { c1 with ellipse_center := none, ellipse_radius_x := 0, ellipse_radius_y := 0 }

/-- Left-button `mousePressEvent` (lines 622-699).  Pan mode starts a view
drag; otherwise, in priority order: resize handle of the selected shape,
then drag-copy (Ctrl) / move / select on a clicked shape, then tool
dispatch on empty canvas, else a deselecting click. -/
def mouse_press_left (c : Canvas) (pos : ℤ × ℤ) (ctrl : Bool) : Canvas :=
  if c.pan_mode then
    { c with dragging := true, last_mouse_pos := some pos }
  else if ¬ c.image_loaded then c
  else
    let after_handle : Option Canvas :=
      match c.selected_shape with
      | none => none
      | some i =>
        match c.shapes.get? i with
        | none => none
        | some s =>
          match c.get_resize_handle_at_pos pos s with
          | none => none
          | some h =>
            some { c with
              resizing := true
              resizing_handle := some h
              resize_start_pos := some (c.widget_to_image pos)
              shapes := c.shapes.set i s.begin_resize }
    match after_handle with
    | some c1 => c1
    | none =>
      let p := c.widget_to_image pos
      match find_last_hit c.shapes p.1 p.2 with
      | some i =>
        if ctrl then c.start_drag_copy i pos
        else
          match c.shapes.get? i with
          | some s => if s.selected then c.start_move i pos else c.select_shape pos
          | none => c
      | none =>
        if c.current_shape_type ≠ "" ∧ c.current_shape_type ≠ "none" then
          if c.current_shape_type = "polygon" then c
          else if c.current_shape_type = "circle" then c.start_circle_drawing pos
          else if c.current_shape_type = "ellipse" then c.start_ellipse_drawing pos
          else if c.current_shape_type = "box" then c.start_drawing pos
          else c
        else c.select_shape pos

/-- `mouseMoveEvent` (lines 701-751), the state dispatch. -/
def mouse_move (c : Canvas) (pos : ℤ × ℤ) : Canvas :=
  if c.dragging ∧ c.last_mouse_pos.isSome then
    match c.last_mouse_pos with
    | some lp =>
      { c with
        offset_x := c.offset_x + ((pos.1 : ℚ) - lp.1)
        offset_y := c.offset_y + ((pos.2 : ℚ) - lp.2)
        last_mouse_pos := some pos }
    | none => c
  else if c.moving ∧ ¬ c.resizing then c.update_move pos
  else if c.drawing then c.update_drawing pos
  else if c.drag_copy ∧ ¬ c.resizing then c.update_drag_copy pos
  else if c.current_shape_type = "circle" ∧ c.circle_center.isSome then
    c.update_circle_drawing pos
  else if c.current_shape_type = "ellipse" ∧ c.ellipse_center.isSome then
    c.update_ellipse_drawing pos
  else if c.resizing ∧ c.resizing_handle.isSome ∧ c.selected_shape.isSome then
    match c.resizing_handle, c.selected_shape, c.resize_start_pos with
    | some h, some i, some sp =>
      match c.shapes.get? i with
      | none => c
      | some s =>
        let cur := c.widget_to_image pos
        { c with shapes := c.shapes.set i (s.resize_from_handle h (cur.1 - sp.1) (cur.2 - sp.2)).1 }
    | _, _, _ => c
  else c

/-- Left-button `mouseReleaseEvent` (lines 753-783): a pan drag simply
stops; otherwise dispatch the commit of the active gesture.  A finished
resize pushes no undo snapshot — it only clears the resize state and the
shape's origin.  The handler unconditionally clears `drag_copy` and
`pasting` at the end. -/
def mouse_release_left (c : Canvas) : Canvas :=
  if c.dragging then { c with dragging := false }
  else
    let c1 :=
      if c.moving then c.finish_move
      else if c.drawing then c.finish_drawing
      else if c.drag_copy then (c.finish_drag_copy).1
      else if c.current_shape_type = "circle" ∧ c.circle_center.isSome then c.finish_circle
      else if c.current_shape_type = "ellipse" ∧ c.ellipse_center.isSome then c.finish_ellipse
      else if c.resizing then
        let c2 := { c with resizing := false, resizing_handle := none, resize_start_pos := none }
        match c2.selected_shape with
        | some i =>
          match c2.shapes.get? i with
          | some s => { c2 with shapes := c2.shapes.set i s.clear_resize_origin }
          | none => c2
        | none => c2
      else c
    { c1 with drag_copy := false, pasting := false }

end Canvas

/-! ### Helper lemmas -/

theorem list_set_get_self {α : Type} (l : List α) (i : ℕ) (h : i < l.length) :
    l.set i (l.get ⟨i, h⟩) = l := by
  induction l generalizing i with
  | nil => simp at h
  | cons x xs ih =>
    cases i with
    | zero => simp
    | succ j =>
      simp only [List.set, List.get]
      rw [ih]

/-- The four corner handle names recognized by box, circle and ellipse. -/
def corner_handle (h : Handle) : Prop :=
  h = Handle.top_left ∨ h = Handle.top_right ∨ h = Handle.bottom_left ∨ h = Handle.bottom_right

/-! ### C10 -/

/-- C10: `copy()` preserves the `selected` flag for circle, ellipse and
polygon shapes (the shallow `__dict__` copy of `core/shape_base.py`),
while a box copy always starts unselected (`BoundingBox.copy` rebuilds the
box through the constructor). -/
theorem C10_copy_preserves_selected :
    (∀ (b : BoundingBox) (n : ℕ), ((Shape.box b).copy n).selected = false) ∧
    (∀ (k : CircleShape) (n : ℕ), ((Shape.circle k).copy n).selected = k.selected) ∧
    (∀ (e : EllipseShape) (n : ℕ), ((Shape.ellipse e).copy n).selected = e.selected) ∧
    (∀ (p : PolygonShape) (n : ℕ), ((Shape.polygon p).copy n).selected = p.selected) :=
  ⟨fun _ _ => rfl, fun _ _ => rfl, fun _ _ => rfl, fun _ _ => rfl⟩

/-! ### C9 -/

/-- C9: for every shape `s`, `s.copy()` carries the freshly drawn id
(modelled by the counter value `n`, distinct from every previously drawn
id, in particular from `s.id`), and `s.copy().to_dict()` agrees with
`s.to_dict()` on every key other than `"id"`. -/
theorem C9_copy_to_dict (s : Shape) (n : ℕ) (hid : s.id < n) :
    (s.copy n).id = n ∧ (s.copy n).id ≠ s.id ∧
    ∀ k : String, k ≠ "id" →
      ((s.copy n).to_dict).lookup k = (s.to_dict).lookup k := by
  refine ⟨?_, ?_, ?_⟩
  · cases s <;> rfl
  · cases s <;>
      · simp only [Shape.copy, Shape.id, BoundingBox.copy, CircleShape.copy,
          EllipseShape.copy, PolygonShape.copy] at hid ⊢
        omega
  · intro k hk
    have hk' : (k == "id") = false := by
      simpa using hk
    cases s <;>
      simp [Shape.copy, Shape.to_dict, BoundingBox.copy, CircleShape.copy,
        EllipseShape.copy, PolygonShape.copy, BoundingBox.to_dict,
        CircleShape.to_dict, EllipseShape.to_dict, PolygonShape.to_dict,
        List.lookup, hk']

/-- Witness for C9 at a concrete circle: the copy's id is the fresh draw,
differs from the original id, and a non-id field is preserved. -/
theorem C9_copy_to_dict_witness :
    ((Shape.circle { id := 3, radius := 1/4 }).copy 7).id = 7 ∧
    ((Shape.circle { id := 3, radius := 1/4 }).copy 7).id ≠ 3 ∧
    (((Shape.circle { id := 3, radius := 1/4 }).copy 7).to_dict).lookup "radius" =
      ((Shape.circle { id := 3, radius := 1/4 : CircleShape }).to_dict).lookup "radius" := by
  have h := C9_copy_to_dict (Shape.circle { id := 3, radius := 1/4 }) 7 (by simp [Shape.id])
  exact ⟨h.1, h.2.1, h.2.2 "radius" (by simp)⟩

/-! ### C3 -/

/-- Counterexample for C3: for the polygon variant,
`resize_from_handle('vertex_0', 1, 1)` succeeds and moves the vertex even
though `begin_resize` was never called — `PolygonShape` has no resize
origin and no guard at all, contradicting the claim that every variant
fails and stays unmutated without a captured origin. -/
theorem C3_cex :
    (((Shape.polygon { id := 0, points := [(1/2, 1/2)], image_width := 128, image_height := 128 }).resize_from_handle
        (Handle.vertex 0) 1 1).2 = true) ∧
    ((Shape.polygon { id := 0, points := [(1/2, 1/2)], image_width := 128, image_height := 128 }).resize_from_handle
        (Handle.vertex 0) 1 1).1 ≠
      Shape.polygon { id := 0, points := [(1/2, 1/2)], image_width := 128, image_height := 128 } := by
  constructor
  · rfl
  · intro h
    simp only [Shape.resize_from_handle, PolygonShape.resize_from_handle,
      Shape.polygon.injEq, PolygonShape.mk.injEq, List.cons.injEq,
      Prod.mk.injEq] at h
    norm_num at h

/-- C3 as amended: for box, circle and ellipse, `resize_from_handle`
without a captured origin, or with an unrecognized handle name, returns
false and leaves the shape unmutated; the polygon variant rejects
non-vertex handle names and out-of-range vertex indices, but has no origin
guard (a vertex handle always mutates, as the counterexample shows). -/
theorem C3_amended :
    (∀ (b : BoundingBox) (h : Handle) (dx dy : ℤ), b.resize_origin = none →
      b.resize_from_handle h dx dy = (b, false)) ∧
    (∀ (k : CircleShape) (h : Handle) (dx dy : ℤ), k.resize_origin = none →
      k.resize_from_handle h dx dy = (k, false)) ∧
    (∀ (e : EllipseShape) (h : Handle) (dx dy : ℤ), e.resize_origin = none →
      e.resize_from_handle h dx dy = (e, false)) ∧
    (∀ (b : BoundingBox) (h : Handle) (dx dy : ℤ), ¬ corner_handle h →
      b.resize_from_handle h dx dy = (b, false)) ∧
    (∀ (k : CircleShape) (h : Handle) (dx dy : ℤ), ¬ corner_handle h →
      k.resize_from_handle h dx dy = (k, false)) ∧
    (∀ (e : EllipseShape) (h : Handle) (dx dy : ℤ), ¬ corner_handle h →
      e.resize_from_handle h dx dy = (e, false)) ∧
    (∀ (p : PolygonShape) (h : Handle) (dx dy : ℤ), (∀ i : ℕ, h ≠ Handle.vertex i) →
      p.resize_from_handle h dx dy = (p, false)) ∧
    (∀ (p : PolygonShape) (i : ℕ) (dx dy : ℤ), p.points.length ≤ i →
      p.resize_from_handle (Handle.vertex i) dx dy = (p, false)) := by
  refine ⟨?_, ?_, ?_, ?_, ?_, ?_, ?_, ?_⟩
  · intro b h dx dy ho
    simp [BoundingBox.resize_from_handle, ho]
  · intro k h dx dy ho
    simp [CircleShape.resize_from_handle, ho]
  · intro e h dx dy ho
    simp [EllipseShape.resize_from_handle, ho]
  · intro b h dx dy hc
    cases h with
    | top_left => exact absurd (Or.inl rfl) hc
    | top_right => exact absurd (Or.inr (Or.inl rfl)) hc
    | bottom_left => exact absurd (Or.inr (Or.inr (Or.inl rfl))) hc
    | bottom_right => exact absurd (Or.inr (Or.inr (Or.inr rfl))) hc
    | vertex i =>
      cases ho : b.resize_origin with
      | none => simp [BoundingBox.resize_from_handle, ho]
      | some o =>
        obtain ⟨o1, o2, o3, o4⟩ := o
        simp [BoundingBox.resize_from_handle, ho, box_resize_bounds, raw_bounds, apply_handle]
    | other =>
      cases ho : b.resize_origin with
      | none => simp [BoundingBox.resize_from_handle, ho]
      | some o =>
        obtain ⟨o1, o2, o3, o4⟩ := o
        simp [BoundingBox.resize_from_handle, ho, box_resize_bounds, raw_bounds, apply_handle]
  · intro k h dx dy hc
    cases h with
    | top_left => exact absurd (Or.inl rfl) hc
    | top_right => exact absurd (Or.inr (Or.inl rfl)) hc
    | bottom_left => exact absurd (Or.inr (Or.inr (Or.inl rfl))) hc
    | bottom_right => exact absurd (Or.inr (Or.inr (Or.inr rfl))) hc
    | vertex i =>
      cases ho : k.resize_origin with
      | none => simp [CircleShape.resize_from_handle, ho]
      | some o =>
        obtain ⟨o1, o2, o3⟩ := o
        simp [CircleShape.resize_from_handle, ho, raw_bounds, apply_handle]
    | other =>
      cases ho : k.resize_origin with
      | none => simp [CircleShape.resize_from_handle, ho]
      | some o =>
        obtain ⟨o1, o2, o3⟩ := o
        simp [CircleShape.resize_from_handle, ho, raw_bounds, apply_handle]
  · intro e h dx dy hc
    cases h with
    | top_left => exact absurd (Or.inl rfl) hc
    | top_right => exact absurd (Or.inr (Or.inl rfl)) hc
    | bottom_left => exact absurd (Or.inr (Or.inr (Or.inl rfl))) hc
    | bottom_right => exact absurd (Or.inr (Or.inr (Or.inr rfl))) hc
    | vertex i =>
      cases ho : e.resize_origin with
      | none => simp [EllipseShape.resize_from_handle, ho]
      | some o =>
        obtain ⟨o1, o2, o3, o4⟩ := o
        simp [EllipseShape.resize_from_handle, ho, raw_bounds, apply_handle]
    | other =>
      cases ho : e.resize_origin with
      | none => simp [EllipseShape.resize_from_handle, ho]
      | some o =>
        obtain ⟨o1, o2, o3, o4⟩ := o
        simp [EllipseShape.resize_from_handle, ho, raw_bounds, apply_handle]
  · intro p h dx dy hv
    cases h with
    | top_left => rfl
    | top_right => rfl
    | bottom_left => rfl
    | bottom_right => rfl
    | vertex i => exact absurd rfl (hv i)
    | other => rfl
  · intro p i dx dy hlen
    have hg : p.points[i]? = none := List.getElem?_eq_none hlen
    simp [PolygonShape.resize_from_handle, hg]

/-- Witness for C3 as amended, at concrete shapes: a box without origin
rejects a corner-handle resize; a circle with origin rejects an unknown
handle; a polygon rejects an out-of-range vertex index. -/
theorem C3_amended_witness :
    (BoundingBox.resize_from_handle { id := 0 } Handle.top_left 3 4 = ({ id := 0 }, false)) ∧
    (CircleShape.resize_from_handle { id := 1, resize_origin := some (5, 5, 2) } Handle.other 3 4 =
      ({ id := 1, resize_origin := some (5, 5, 2) }, false)) ∧
    (PolygonShape.resize_from_handle { id := 2, points := [(0, 0)] } (Handle.vertex 5) 3 4 =
      ({ id := 2, points := [(0, 0)] }, false)) := by
  refine ⟨?_, ?_, ?_⟩
  · exact C3_amended.1 { id := 0 } Handle.top_left 3 4 rfl
  · exact C3_amended.2.2.2.2.1 { id := 1, resize_origin := some (5, 5, 2) } Handle.other 3 4
      (by intro hc; rcases hc with h | h | h | h <;> cases h)
  · exact C3_amended.2.2.2.2.2.2.2 { id := 2, points := [(0, 0)] } 5 3 4 (by simp)

/-! ### C4 -/

/-- Counterexample for C4: shrinking a circle of pixel radius 20 far below
the 5-pixel floor is not rejected — `resize_from_handle` returns true and
applies the mutation with the radius clamped to exactly the floor
(5px = 5/128 normalized), so the prior geometry is not retained. -/
theorem C4_cex :
    (let k : CircleShape :=
      { id := 0, center_x := 1/2, center_y := 1/2, radius := 20/128,
        image_width := 128, image_height := 128 }
     let r := (k.begin_resize).resize_from_handle Handle.top_left 35 35
     r.2 = true ∧ r.1.radius = 5/128 ∧ r.1.radius ≠ k.radius) := by
  norm_num [CircleShape.begin_resize, CircleShape.to_pixels,
    CircleShape.resize_from_handle, raw_bounds, apply_handle, fix_inversion,
    show ((128 : ℤ).fdiv 2 = 64) by decide]

/-- C4 as amended: a resize that would shrink a circle or ellipse below
the 5-pixel radius floor is applied with the radius clamped up to the
floor and reported as success, never rejected (with a captured origin and
a corner handle the call always returns true, and the resulting pixel
radius is at least 5; when the computed radius is at most 5 the result is
exactly the floor).  A box resize with a captured origin and a corner
handle likewise always returns true: boxes have no 10-pixel minimum-span
floor at all, only the 1-pixel inversion fix. -/
theorem C4_amended :
    (∀ (k : CircleShape) (h : Handle) (dx dy o1 o2 o3 : ℤ),
      k.resize_origin = some (o1, o2, o3) → corner_handle h →
      0 < k.image_width → 0 < k.image_height →
      ((k.resize_from_handle h dx dy).2 = true ∧
       5 ≤ (k.resize_from_handle h dx dy).1.radius * ((max k.image_width k.image_height : ℤ) : ℚ) ∧
       (∀ l t r bm : ℤ,
         raw_bounds (o1 - o3, o2 - o3, o1 + o3, o2 + o3) h dx dy = some (l, t, r, bm) →
         min ((r : ℚ) - l) ((bm : ℚ) - t) / 2 ≤ 5 →
         (k.resize_from_handle h dx dy).1.radius * ((max k.image_width k.image_height : ℤ) : ℚ) = 5))) ∧
    (∀ (e : EllipseShape) (h : Handle) (dx dy o1 o2 o3 o4 : ℤ),
      e.resize_origin = some (o1, o2, o3, o4) → corner_handle h →
      0 < e.image_width → 0 < e.image_height →
      ((e.resize_from_handle h dx dy).2 = true ∧
       5 ≤ (e.resize_from_handle h dx dy).1.radius_x * ((e.image_width : ℤ) : ℚ) ∧
       5 ≤ (e.resize_from_handle h dx dy).1.radius_y * ((e.image_height : ℤ) : ℚ))) ∧
    (∀ (b : BoundingBox) (h : Handle) (dx dy : ℤ) (o : ℤ × ℤ × ℤ × ℤ),
      b.resize_origin = some o → corner_handle h →
      (b.resize_from_handle h dx dy).2 = true) := by
  refine ⟨?_, ?_, ?_⟩
  · intro k h dx dy o1 o2 o3 ho hc hW hH
    have hex : ∃ l t r bm : ℤ,
        raw_bounds (o1 - o3, o2 - o3, o1 + o3, o2 + o3) h dx dy = some (l, t, r, bm) := by
      rcases hc with rfl | rfl | rfl | rfl <;>
        exact ⟨_, _, _, _, rfl⟩
    obtain ⟨l, t, r, bm, hrb⟩ := hex
    have hM : ((max k.image_width k.image_height : ℤ) : ℚ) ≠ 0 := by
      have : (0 : ℤ) < max k.image_width k.image_height := lt_max_of_lt_left hW
      exact_mod_cast this.ne'
    refine ⟨?_, ?_, ?_⟩
    · simp [CircleShape.resize_from_handle, ho, hrb]
    · simp only [CircleShape.resize_from_handle, ho, hrb]
      rw [div_mul_cancel₀ _ hM]
      exact le_max_left _ _
    · intro l' t' r' bm' hrb' hsmall
      rw [hrb] at hrb'
      obtain ⟨rfl, rfl, rfl, rfl⟩ : l = l' ∧ t = t' ∧ r = r' ∧ bm = bm' := by
        have := Option.some.inj hrb'
        simp only [Prod.mk.injEq] at this
        tauto
      simp only [CircleShape.resize_from_handle, ho, hrb]
      rw [div_mul_cancel₀ _ hM]
      exact max_eq_left (le_trans (min_le_left _ _) hsmall)
  · intro e h dx dy o1 o2 o3 o4 ho hc hW hH
    have hex : ∃ l t r bm : ℤ,
        raw_bounds (o1 - o3, o2 - o4, o1 + o3, o2 + o4) h dx dy = some (l, t, r, bm) := by
      rcases hc with rfl | rfl | rfl | rfl <;>
        exact ⟨_, _, _, _, rfl⟩
    obtain ⟨l, t, r, bm, hrb⟩ := hex
    have hWq : ((e.image_width : ℤ) : ℚ) ≠ 0 := by exact_mod_cast hW.ne'
    have hHq : ((e.image_height : ℤ) : ℚ) ≠ 0 := by exact_mod_cast hH.ne'
    refine ⟨?_, ?_, ?_⟩
    · simp [EllipseShape.resize_from_handle, ho, hrb]
    · simp only [EllipseShape.resize_from_handle, ho, hrb]
      rw [div_mul_cancel₀ _ hWq]
      exact le_max_left _ _
    · simp only [EllipseShape.resize_from_handle, ho, hrb]
      rw [div_mul_cancel₀ _ hHq]
      exact le_max_left _ _
  · intro b h dx dy o ho hc
    obtain ⟨p1, p2, p3, p4⟩ := o
    have hex : ∃ l t r bm : ℤ,
        box_resize_bounds b.image_width b.image_height (p1, p2, p3, p4) h dx dy = some (l, t, r, bm) := by
      rcases hc with rfl | rfl | rfl | rfl <;>
        exact ⟨_, _, _, _, rfl⟩
    obtain ⟨l, t, r, bm, hrb⟩ := hex
    simp [BoundingBox.resize_from_handle, ho, hrb]

/-- Witness for C4 as amended: the circle of the counterexample, resized
with a captured origin `(64, 64, 20)` and the `top_left` handle by
`(35, 35)`, succeeds with its pixel radius clamped to exactly 5. -/
theorem C4_amended_witness :
    ((CircleShape.resize_from_handle
        { id := 0, center_x := 1/2, center_y := 1/2, radius := 20/128,
          image_width := 128, image_height := 128, resize_origin := some (64, 64, 20) }
        Handle.top_left 35 35).2 = true) ∧
    (5 : ℚ) ≤ (CircleShape.resize_from_handle
        { id := 0, center_x := 1/2, center_y := 1/2, radius := 20/128,
          image_width := 128, image_height := 128, resize_origin := some (64, 64, 20) }
        Handle.top_left 35 35).1.radius * ((128 : ℤ) : ℚ) ∧
    (CircleShape.resize_from_handle
        { id := 0, center_x := 1/2, center_y := 1/2, radius := 20/128,
          image_width := 128, image_height := 128, resize_origin := some (64, 64, 20) }
        Handle.top_left 35 35).1.radius * ((128 : ℤ) : ℚ) = 5 := by
  have h := C4_amended.1
    { id := 0, center_x := 1/2, center_y := 1/2, radius := 20/128,
      image_width := 128, image_height := 128, resize_origin := some (64, 64, 20) }
    Handle.top_left 35 35 64 64 20 rfl (Or.inl rfl) (by norm_num) (by norm_num)
  refine ⟨h.1, ?_, ?_⟩
  · have := h.2.1
    norm_num at this ⊢
    exact this
  · have := h.2.2 79 79 84 84 (by decide) (by norm_num)
    norm_num at this ⊢
    exact this

/-! ### C7 -/

/-- Counterexample for C7: a circle of pixel radius 2 (below the 5-pixel
floor) is mutated by a zero-delta resize — the radius is re-derived from
the pixel origin and clamped up to the floor, so `resize_from_handle(h,0,0)`
after `begin_resize()` changes the geometry and still returns true. -/
theorem C7_cex :
    (let k : CircleShape :=
      { id := 0, center_x := 1/2, center_y := 1/2, radius := 1/64,
        image_width := 128, image_height := 128 }
     let r := (k.begin_resize).resize_from_handle Handle.top_left 0 0
     r.2 = true ∧ r.1.radius = 5/128 ∧ r.1.radius ≠ k.radius) := by
  norm_num [CircleShape.begin_resize, CircleShape.to_pixels,
    CircleShape.resize_from_handle, raw_bounds, apply_handle, fix_inversion,
    show ((128 : ℤ).fdiv 2 = 64) by decide]

/-- Zero-delta handle application after the inversion fix is the identity
on non-degenerate bounds. -/
theorem raw_bounds_zero_delta (a b c d : ℤ) (h : Handle) (hc : corner_handle h)
    (h1 : a < c) (h2 : b < d) :
    raw_bounds (a, b, c, d) h 0 0 = some (a, b, c, d) := by
  rcases hc with rfl | rfl | rfl | rfl <;>
    · simp only [raw_bounds, apply_handle, Option.map_some', fix_inversion, add_zero]
      rw [if_neg (by omega), if_neg (by omega)]

/-- Zero-delta box bounds: with in-range non-degenerate origin bounds the
full pipeline (handle, inversion fix, clamping) is the identity. -/
theorem box_bounds_zero_delta (W H a b c d : ℤ) (h : Handle) (hc : corner_handle h)
    (h1 : a < c) (h2 : b < d) (h3 : 0 ≤ a) (h4 : c ≤ W - 1) (h5 : 0 ≤ b) (h6 : d ≤ H - 1) :
    box_resize_bounds W H (a, b, c, d) h 0 0 = some (a, b, c, d) := by
  rw [box_resize_bounds, raw_bounds_zero_delta a b c d h hc h1 h2]
  simp only [Option.map_some', clamp_bounds, Option.some.injEq, Prod.mk.injEq]
  refine ⟨by omega, by omega, by omega, by omega⟩

/-- C7 as amended: `begin_resize()` followed by `resize_from_handle(h,0,0)`
with a valid handle leaves the geometry unchanged *provided* the shape is
pixel-aligned and within its floors and bounds: for a box, pixel bounds
strictly ordered and inside `[0, dim-1]` with the normalized fields exactly
matching them; for a circle (resp. ellipse), pixel radius at least the
5-pixel floor and at most half the image dimension, centers and radii
pixel-exact.  For polygons the zero-delta vertex resize is unconditionally
the identity (and returns true — with no origin requirement).  In general
the geometry does change (see the counterexample): the result is re-derived
from the truncated pixel origin and clamped. -/
theorem C7_amended :
    (∀ (b : BoundingBox) (h : Handle) (x1 y1 x2 y2 : ℤ),
      corner_handle h → b.to_pixels = (x1, y1, x2, y2) →
      x1 < x2 → y1 < y2 → 0 ≤ x1 → x2 ≤ b.image_width - 1 → 0 ≤ y1 → y2 ≤ b.image_height - 1 →
      b.x = ((x1 : ℚ) + x2) / 2 / (b.image_width : ℚ) →
      b.y = ((y1 : ℚ) + y2) / 2 / (b.image_height : ℚ) →
      b.width = ((x2 : ℚ) - x1) / (b.image_width : ℚ) →
      b.height = ((y2 : ℚ) - y1) / (b.image_height : ℚ) →
      ((b.begin_resize.resize_from_handle h 0 0).2 = true ∧
       (b.begin_resize.resize_from_handle h 0 0).1.x = b.x ∧
       (b.begin_resize.resize_from_handle h 0 0).1.y = b.y ∧
       (b.begin_resize.resize_from_handle h 0 0).1.width = b.width ∧
       (b.begin_resize.resize_from_handle h 0 0).1.height = b.height)) ∧
    (∀ (k : CircleShape) (h : Handle) (cx cy r : ℤ),
      corner_handle h → k.to_pixels = (cx, cy, r) →
      5 ≤ r → r ≤ (min k.image_width k.image_height).fdiv 2 →
      k.center_x = (cx : ℚ) / (k.image_width : ℚ) →
      k.center_y = (cy : ℚ) / (k.image_height : ℚ) →
      k.radius = (r : ℚ) / ((max k.image_width k.image_height : ℤ) : ℚ) →
      ((k.begin_resize.resize_from_handle h 0 0).2 = true ∧
       (k.begin_resize.resize_from_handle h 0 0).1.center_x = k.center_x ∧
       (k.begin_resize.resize_from_handle h 0 0).1.center_y = k.center_y ∧
       (k.begin_resize.resize_from_handle h 0 0).1.radius = k.radius)) ∧
    (∀ (e : EllipseShape) (h : Handle) (cx cy rx ry : ℤ),
      corner_handle h → e.to_pixels = (cx, cy, rx, ry) →
      5 ≤ rx → rx ≤ e.image_width.fdiv 2 → 5 ≤ ry → ry ≤ e.image_height.fdiv 2 →
      e.center_x = (cx : ℚ) / (e.image_width : ℚ) →
      e.center_y = (cy : ℚ) / (e.image_height : ℚ) →
      e.radius_x = (rx : ℚ) / (e.image_width : ℚ) →
      e.radius_y = (ry : ℚ) / (e.image_height : ℚ) →
      ((e.begin_resize.resize_from_handle h 0 0).2 = true ∧
       (e.begin_resize.resize_from_handle h 0 0).1.center_x = e.center_x ∧
       (e.begin_resize.resize_from_handle h 0 0).1.center_y = e.center_y ∧
       (e.begin_resize.resize_from_handle h 0 0).1.radius_x = e.radius_x ∧
       (e.begin_resize.resize_from_handle h 0 0).1.radius_y = e.radius_y)) ∧
    (∀ (p : PolygonShape) (i : ℕ), i < p.points.length →
      p.resize_from_handle (Handle.vertex i) 0 0 = (p, true)) := by
  refine ⟨?_, ?_, ?_, ?_⟩
  · intro b h x1 y1 x2 y2 hc hpx h1 h2 h3 h4 h5 h6 hax hay haw hah
    have hb : b.begin_resize = { b with resize_origin := some (x1, y1, x2, y2) } := by
      simp [BoundingBox.begin_resize, hpx]
    rw [hb]
    simp only [BoundingBox.resize_from_handle,
      box_bounds_zero_delta b.image_width b.image_height x1 y1 x2 y2 h hc h1 h2 h3 h4 h5 h6]
    exact ⟨trivial, hax.symm, hay.symm, by rw [haw], by rw [hah]⟩
  · intro k h cx cy r hc hpx hr5 hrmax hacx hacy har
    have hb : k.begin_resize = { k with resize_origin := some (cx, cy, r) } := by
      simp [CircleShape.begin_resize, hpx]
    rw [hb]
    have hraw : raw_bounds (cx - r, cy - r, cx + r, cy + r) h 0 0 =
        some (cx - r, cy - r, cx + r, cy + r) :=
      raw_bounds_zero_delta _ _ _ _ h hc (by omega) (by omega)
    simp only [CircleShape.resize_from_handle, hraw]
    refine ⟨trivial, ?_, ?_, ?_⟩
    · rw [hacx]
      congr 1
      push_cast
      ring
    · rw [hacy]
      congr 1
      push_cast
      ring
    · rw [har]
      congr 1
      have e1 : (((cx + r : ℤ) : ℚ) - ((cx - r : ℤ) : ℚ)) = 2 * r := by push_cast; ring
      have e2 : (((cy + r : ℤ) : ℚ) - ((cy - r : ℤ) : ℚ)) = 2 * r := by push_cast; ring
      rw [e1, e2, min_self]
      have hr5q : (5 : ℚ) ≤ (r : ℚ) := by exact_mod_cast hr5
      have hrmq : (r : ℚ) ≤ (((min k.image_width k.image_height).fdiv 2 : ℤ) : ℚ) := by
        exact_mod_cast hrmax
      rw [show (2 * (r : ℚ)) / 2 = (r : ℚ) by ring]
      rw [min_eq_left hrmq, max_eq_right hr5q]
  · intro e h cx cy rx ry hc hpx hx5 hxmax hy5 hymax hacx hacy harx hary
    have hb : e.begin_resize = { e with resize_origin := some (cx, cy, rx, ry) } := by
      simp [EllipseShape.begin_resize, hpx]
    rw [hb]
    have hraw : raw_bounds (cx - rx, cy - ry, cx + rx, cy + ry) h 0 0 =
        some (cx - rx, cy - ry, cx + rx, cy + ry) :=
      raw_bounds_zero_delta _ _ _ _ h hc (by omega) (by omega)
    simp only [EllipseShape.resize_from_handle, hraw]
    have ex : (((cx + rx : ℤ) : ℚ) - ((cx - rx : ℤ) : ℚ)) / 2 = (rx : ℚ) := by push_cast; ring
    have ey : (((cy + ry : ℤ) : ℚ) - ((cy - ry : ℤ) : ℚ)) / 2 = (ry : ℚ) := by push_cast; ring
    refine ⟨trivial, ?_, ?_, ?_, ?_⟩
    · rw [hacx]
      congr 1
      push_cast
      ring
    · rw [hacy]
      congr 1
      push_cast
      ring
    · rw [harx]
      congr 1
      rw [ex, min_eq_left (by exact_mod_cast hxmax), max_eq_right (by exact_mod_cast hx5)]
    · rw [hary]
      congr 1
      rw [ey, min_eq_left (by exact_mod_cast hymax), max_eq_right (by exact_mod_cast hy5)]
  · intro p i hi
    have hg : p.points.get? i = some (p.points.get ⟨i, hi⟩) := List.get?_eq_get hi
    simp only [PolygonShape.resize_from_handle, hg, Int.cast_zero, zero_div, add_zero,
      Prod.mk.eta]
    rw [list_set_get_self p.points i hi]

/-- Witness for C7 as amended: a pixel-aligned box, circle, ellipse and a
one-vertex polygon, each unchanged by a zero-delta resize. -/
theorem C7_amended_witness :
    (let b : BoundingBox :=
      { id := 0, x := 1/4, y := 1/4, width := 1/4, height := 1/4,
        image_width := 128, image_height := 128 }
     (b.begin_resize.resize_from_handle Handle.bottom_right 0 0).1.width = b.width) ∧
    (let k : CircleShape :=
      { id := 0, center_x := 1/2, center_y := 1/2, radius := 20/128,
        image_width := 128, image_height := 128 }
     (k.begin_resize.resize_from_handle Handle.top_left 0 0).1.radius = k.radius) ∧
    (let e : EllipseShape :=
      { id := 0, center_x := 1/2, center_y := 1/2, radius_x := 10/128, radius_y := 20/128,
        image_width := 128, image_height := 128 }
     (e.begin_resize.resize_from_handle Handle.top_right 0 0).1.radius_x = e.radius_x) ∧
    (PolygonShape.resize_from_handle { id := 0, points := [(1/2, 1/2)] } (Handle.vertex 0) 0 0 =
      ({ id := 0, points := [(1/2, 1/2)] }, true)) := by
  refine ⟨?_, ?_, ?_, ?_⟩
  · have h := (C7_amended.1
      { id := 0, x := 1/4, y := 1/4, width := 1/4, height := 1/4,
        image_width := 128, image_height := 128 }
      Handle.bottom_right 16 16 48 48 (Or.inr (Or.inr (Or.inr rfl)))
      (by norm_num [BoundingBox.to_pixels]) (by norm_num) (by norm_num) (by norm_num)
      (by norm_num) (by norm_num) (by norm_num) (by norm_num) (by norm_num)
      (by norm_num) (by norm_num))
    exact h.2.2.2.1
  · have h := (C7_amended.2.1
      { id := 0, center_x := 1/2, center_y := 1/2, radius := 20/128,
        image_width := 128, image_height := 128 }
      Handle.top_left 64 64 20 (Or.inl rfl)
      (by norm_num [CircleShape.to_pixels]) (by norm_num)
      (by norm_num [show ((128 : ℤ).fdiv 2 = 64) by decide]) (by norm_num) (by norm_num)
      (by norm_num))
    exact h.2.2.2
  · have h := (C7_amended.2.2.1
      { id := 0, center_x := 1/2, center_y := 1/2, radius_x := 10/128, radius_y := 20/128,
        image_width := 128, image_height := 128 }
      Handle.top_right 64 64 10 20 (Or.inr (Or.inl rfl))
      (by norm_num [EllipseShape.to_pixels]) (by norm_num)
      (by norm_num [show ((128 : ℤ).fdiv 2 = 64) by decide]) (by norm_num)
      (by norm_num [show ((128 : ℤ).fdiv 2 = 64) by decide]) (by norm_num) (by norm_num)
      (by norm_num) (by norm_num))
    exact h.2.2.2.1
  · exact C7_amended.2.2.2 { id := 0, points := [(1/2, 1/2)] } 0 (by norm_num)

/-! ### C8 -/

/-- Counterexample for C8: with origin `(64,64,80,80)` on a 128×128 image,
dragging the `top_left` handle by `dx = 100` forces the inversion fix
(right := left + 1 = 165), but the subsequent clamp collapses both
horizontal edges to 127: the resulting pixel bounds have zero width, and
the box is committed with normalized `width = 0`. -/
theorem C8_cex :
    box_resize_bounds 128 128 (64, 64, 80, 80) Handle.top_left 100 0 =
      some (127, 64, 127, 80) ∧
    (let b : BoundingBox :=
      { id := 0, x := 72/128, y := 72/128, width := 16/128, height := 16/128,
        image_width := 128, image_height := 128 }
     let r := (b.begin_resize).resize_from_handle Handle.top_left 100 0
     r.2 = true ∧ r.1.width = 0) := by
  constructor
  · decide
  · norm_num [BoundingBox.begin_resize, BoundingBox.to_pixels,
      BoundingBox.resize_from_handle, box_resize_bounds, raw_bounds,
      apply_handle, fix_inversion, clamp_bounds]

/-- The inversion fix guarantees strictly ordered bounds before clamping. -/
theorem raw_bounds_strict (o : ℤ × ℤ × ℤ × ℤ) (h : Handle) (dx dy l t r bm : ℤ)
    (hc : corner_handle h) (hrb : raw_bounds o h dx dy = some (l, t, r, bm)) :
    l < r ∧ t < bm := by
  obtain ⟨o1, o2, o3, o4⟩ := o
  rcases hc with rfl | rfl | rfl | rfl <;>
    · simp only [raw_bounds, apply_handle, Option.map_some', fix_inversion,
        Option.some.injEq, Prod.mk.injEq] at hrb
      obtain ⟨h1, h2, h3, h4⟩ := hrb
      split_ifs at h3 h4 <;> omega

/-- After clamping, all four edges lie in the image rectangle and the
bounds are still (weakly) ordered. -/
theorem clamped_bounds_range (W H : ℤ) (o : ℤ × ℤ × ℤ × ℤ) (h : Handle)
    (dx dy l t r bm : ℤ) (hW : 1 ≤ W) (hH : 1 ≤ H)
    (hrb : box_resize_bounds W H o h dx dy = some (l, t, r, bm)) :
    0 ≤ l ∧ l ≤ r ∧ r ≤ W - 1 ∧ 0 ≤ t ∧ t ≤ bm ∧ bm ≤ H - 1 := by
  obtain ⟨o1, o2, o3, o4⟩ := o
  cases h with
  | vertex i => simp [box_resize_bounds, raw_bounds, apply_handle] at hrb
  | other => simp [box_resize_bounds, raw_bounds, apply_handle] at hrb
  | top_left =>
    simp only [box_resize_bounds, raw_bounds, apply_handle, Option.map_some',
      fix_inversion, clamp_bounds, Option.some.injEq, Prod.mk.injEq] at hrb
    split_ifs at hrb <;>
      · obtain ⟨h1, h2, h3, h4⟩ := hrb
        omega
  | top_right =>
    simp only [box_resize_bounds, raw_bounds, apply_handle, Option.map_some',
      fix_inversion, clamp_bounds, Option.some.injEq, Prod.mk.injEq] at hrb
    split_ifs at hrb <;>
      · obtain ⟨h1, h2, h3, h4⟩ := hrb
        omega
  | bottom_left =>
    simp only [box_resize_bounds, raw_bounds, apply_handle, Option.map_some',
      fix_inversion, clamp_bounds, Option.some.injEq, Prod.mk.injEq] at hrb
    split_ifs at hrb <;>
      · obtain ⟨h1, h2, h3, h4⟩ := hrb
        omega
  | bottom_right =>
    simp only [box_resize_bounds, raw_bounds, apply_handle, Option.map_some',
      fix_inversion, clamp_bounds, Option.some.injEq, Prod.mk.injEq] at hrb
    split_ifs at hrb <;>
      · obtain ⟨h1, h2, h3, h4⟩ := hrb
        omega

/-- When the fixed bounds already lie inside the image, clamping is the
identity (so, with `raw_bounds_strict`, the final width and height are at
least one pixel). -/
theorem clamp_identity (W H : ℤ) (o : ℤ × ℤ × ℤ × ℤ) (h : Handle)
    (dx dy l t r bm : ℤ) (hrb : raw_bounds o h dx dy = some (l, t, r, bm))
    (hl : 0 ≤ l) (hr : r ≤ W - 1) (ht : 0 ≤ t) (hb : bm ≤ H - 1)
    (hlr : l ≤ r) (htb : t ≤ bm) :
    box_resize_bounds W H o h dx dy = some (l, t, r, bm) := by
  rw [box_resize_bounds, hrb]
  simp only [Option.map_some', clamp_bounds, Option.some.injEq, Prod.mk.injEq]
  refine ⟨by omega, by omega, by omega, by omega⟩

/-- C8 as amended: before clamping, the inversion fix does force
`right ≥ left + 1` and `bottom ≥ top + 1`; the final clamp puts all four
edges into `[0, image_dimension - 1]` and keeps them ordered, so width and
height are never negative — but when the fixed bounds overflow the image
the clamp can collapse a dimension to zero width (see the counterexample),
while bounds already inside the image keep their ≥ 1 pixel span.  A box
resize with a captured origin and a corner handle always succeeds, with
nonnegative committed width and height. -/
theorem C8_amended :
    (∀ (o : ℤ × ℤ × ℤ × ℤ) (h : Handle) (dx dy l t r bm : ℤ), corner_handle h →
      raw_bounds o h dx dy = some (l, t, r, bm) → l + 1 ≤ r ∧ t + 1 ≤ bm) ∧
    (∀ (W H : ℤ) (o : ℤ × ℤ × ℤ × ℤ) (h : Handle) (dx dy l t r bm : ℤ),
      1 ≤ W → 1 ≤ H → box_resize_bounds W H o h dx dy = some (l, t, r, bm) →
      0 ≤ l ∧ l ≤ r ∧ r ≤ W - 1 ∧ 0 ≤ t ∧ t ≤ bm ∧ bm ≤ H - 1) ∧
    (∀ (W H : ℤ) (o : ℤ × ℤ × ℤ × ℤ) (h : Handle) (dx dy l t r bm : ℤ),
      corner_handle h → raw_bounds o h dx dy = some (l, t, r, bm) →
      0 ≤ l → r ≤ W - 1 → 0 ≤ t → bm ≤ H - 1 →
      box_resize_bounds W H o h dx dy = some (l, t, r, bm) ∧ l + 1 ≤ r ∧ t + 1 ≤ bm) ∧
    (∀ (b : BoundingBox) (h : Handle) (dx dy : ℤ) (o : ℤ × ℤ × ℤ × ℤ),
      b.resize_origin = some o → corner_handle h →
      1 ≤ b.image_width → 1 ≤ b.image_height →
      ((b.resize_from_handle h dx dy).2 = true ∧
       0 ≤ (b.resize_from_handle h dx dy).1.width * (b.image_width : ℚ) ∧
       0 ≤ (b.resize_from_handle h dx dy).1.height * (b.image_height : ℚ))) := by
  refine ⟨?_, ?_, ?_, ?_⟩
  · intro o h dx dy l t r bm hc hrb
    have := raw_bounds_strict o h dx dy l t r bm hc hrb
    omega
  · intro W H o h dx dy l t r bm hW hH hrb
    exact clamped_bounds_range W H o h dx dy l t r bm hW hH hrb
  · intro W H o h dx dy l t r bm hc hrb hl hr ht hb
    have hstrict := raw_bounds_strict o h dx dy l t r bm hc hrb
    exact ⟨clamp_identity W H o h dx dy l t r bm hrb hl hr ht hb
      (by omega) (by omega), by omega, by omega⟩
  · intro b h dx dy o ho hc hW hH
    obtain ⟨o1, o2, o3, o4⟩ := o
    have hex : ∃ l t r bm : ℤ,
        box_resize_bounds b.image_width b.image_height (o1, o2, o3, o4) h dx dy =
          some (l, t, r, bm) := by
      rcases hc with rfl | rfl | rfl | rfl <;> exact ⟨_, _, _, _, rfl⟩
    obtain ⟨l, t, r, bm, hrb⟩ := hex
    have hrange := clamped_bounds_range b.image_width b.image_height (o1, o2, o3, o4)
      h dx dy l t r bm hW hH hrb
    have hWq : ((b.image_width : ℤ) : ℚ) ≠ 0 := by
      exact_mod_cast (show (0 : ℤ) < b.image_width by omega).ne'
    have hHq : ((b.image_height : ℤ) : ℚ) ≠ 0 := by
      exact_mod_cast (show (0 : ℤ) < b.image_height by omega).ne'
    refine ⟨?_, ?_, ?_⟩
    · simp [BoundingBox.resize_from_handle, ho, hrb]
    · simp only [BoundingBox.resize_from_handle, ho, hrb]
      rw [div_mul_cancel₀ _ hWq]
      have : (l : ℚ) ≤ (r : ℚ) := by exact_mod_cast hrange.2.1
      linarith
    · simp only [BoundingBox.resize_from_handle, ho, hrb]
      rw [div_mul_cancel₀ _ hHq]
      have : (t : ℚ) ≤ (bm : ℚ) := by exact_mod_cast hrange.2.2.2.2.1
      linarith

/-- Witness for C8 as amended, at the counterexample input: the forced
pre-clamp bounds are strict, the clamped bounds stay in `[0,127]` and
ordered, and the committed resize succeeds with nonnegative size. -/
theorem C8_amended_witness :
    ((127 : ℤ) + 1 ≤ 165 ∧ (64 : ℤ) + 1 ≤ 80) ∧
    ((0 : ℤ) ≤ 127 ∧ (127 : ℤ) ≤ 127 ∧ (127 : ℤ) ≤ 128 - 1 ∧
      (0 : ℤ) ≤ 64 ∧ (64 : ℤ) ≤ 80 ∧ (80 : ℤ) ≤ 128 - 1) ∧
    ((BoundingBox.resize_from_handle
        { id := 0, x := 72/128, y := 72/128, width := 16/128, height := 16/128,
          image_width := 128, image_height := 128, resize_origin := some (64, 64, 80, 80) }
        Handle.top_left 100 0).2 = true) := by
  refine ⟨?_, ?_, ?_⟩
  · have h := C8_amended.1 (64, 64, 80, 80) Handle.top_left 100 0 164 64 165 80
      (Or.inl rfl) (by decide)
    exact ⟨by omega, h.2⟩
  · have h := C8_amended.2.1 128 128 (64, 64, 80, 80) Handle.top_left 100 0 127 64 127 80
      (by norm_num) (by norm_num) (by decide)
    exact h
  · exact (C8_amended.2.2.2
      { id := 0, x := 72/128, y := 72/128, width := 16/128, height := 16/128,
        image_width := 128, image_height := 128, resize_origin := some (64, 64, 80, 80) }
      Handle.top_left 100 0 (64, 64, 80, 80) rfl (Or.inl rfl)
      (by norm_num) (by norm_num)).1

/-! ### C2 -/

/-- Snapshot copies preserve everything except ids, selection flags and
transient resize origins. -/
theorem copy_shapes_strip (l : List Shape) (n : ℕ) :
    ((Canvas.copy_shapes l n).1).map Shape.strip = l.map Shape.strip := by
  induction l generalizing n with
  | nil => rfl
  | cons s rest ih =>
    simp only [Canvas.copy_shapes, List.map_cons, ih]
    congr 1
    cases s <;> rfl

@[simp] theorem str_box_ne_empty : ("box" : String) ≠ "" := by decide
@[simp] theorem str_box_ne_none : ("box" : String) ≠ "none" := by decide
@[simp] theorem str_box_ne_polygon : ("box" : String) ≠ "polygon" := by decide
@[simp] theorem str_box_ne_circle : ("box" : String) ≠ "circle" := by decide
@[simp] theorem str_box_ne_ellipse : ("box" : String) ≠ "ellipse" := by decide
@[simp] theorem str_circle_ne_empty : ("circle" : String) ≠ "" := by decide
@[simp] theorem str_circle_ne_none : ("circle" : String) ≠ "none" := by decide
@[simp] theorem str_circle_ne_polygon : ("circle" : String) ≠ "polygon" := by decide

/-- Counterexample for C2: draw a box (16,16)-(48,48) on a 128×128 canvas,
select it, then perform a full resize gesture (press on the bottom-right
handle, drag to (60,60), release).  The release commits the resize but
pushes nothing onto the undo stack — the stack still holds only the
pre-draw snapshot `[]` — so an undo performed immediately after the commit
does not restore the pre-gesture collection (the resized box): it empties
the canvas. -/
theorem C2_cex :
    (let c0 : Canvas := { image_width := 128, image_height := 128, current_class := some 0 }
     let c := ((c0.mouse_press_left (16, 16) false).mouse_move (48, 48)).mouse_release_left
     let c := c.mouse_press_left (32, 32) false
     let c := ((c.mouse_press_left (48, 48) false).mouse_move (60, 60)).mouse_release_left
     c.shapes.length = 1 ∧ c.undo_stack = [[]] ∧ (c.undo).1.shapes = []) := by
  norm_num [Canvas.mouse_press_left, Canvas.mouse_move, Canvas.mouse_release_left,
    Canvas.widget_to_image, Canvas.find_last_hit, Canvas.get_resize_handle_at_pos,
    Canvas.find_handle, Canvas.select_shape, Canvas.start_drawing,
    Canvas.update_drawing, Canvas.finish_drawing, Canvas.start_move,
    Canvas.update_move, Canvas.finish_move, Canvas.save_state,
    Canvas.copy_shapes, Canvas.force_reset_for_drawing, Canvas.undo,
    Canvas.start_drag_copy, Canvas.update_drag_copy, Canvas.finish_drag_copy,
    Canvas.start_circle_drawing, Canvas.update_circle_drawing, Canvas.finish_circle,
    Canvas.start_ellipse_drawing, Canvas.update_ellipse_drawing, Canvas.finish_ellipse,
    Shape.contains_point, Shape.get_resize_handles, Shape.begin_resize,
    Shape.clear_resize_origin, Shape.resize_from_handle, Shape.set_selected,
    Shape.selected, Shape.copy, Canvas.move_by,
    BoundingBox.contains_point, BoundingBox.to_pixels, BoundingBox.from_pixels,
    BoundingBox.get_resize_handles, BoundingBox.begin_resize, BoundingBox.copy,
    BoundingBox.resize_from_handle, box_resize_bounds, raw_bounds, apply_handle,
    fix_inversion, clamp_bounds,
    show ((8 : ℤ).fdiv 2 = 4) by decide]

/-- C2 as amended: committing a draw pushes the pre-mutation collection
(a fresh-id copy) onto the undo stack and clears redo, so an immediate
undo restores the pre-gesture collection up to regenerated ids, reset
selection flags and cleared resize origins; committing a move or a
drag-copy pushes a snapshot of the collection with the mutation already
applied (so an undo after them does not rewind the gesture); committing a
resize pushes nothing at all and leaves both stacks untouched. -/
theorem C2_amended :
    (∀ c : Canvas, c.dragging = false → c.moving = false → c.drawing = false →
      c.drag_copy = false → c.circle_center = none → c.ellipse_center = none →
      c.resizing = true →
      ((c.mouse_release_left).undo_stack = c.undo_stack ∧
       (c.mouse_release_left).redo_stack = c.redo_stack)) ∧
    (∀ c : Canvas, c.moving = true → c.selected_shape.isSome = true →
      c.undo_stack.length < c.max_stack_size →
      ((c.finish_move).undo_stack = (Canvas.copy_shapes c.shapes c.next_id).1 :: c.undo_stack ∧
       (c.finish_move).redo_stack = [] ∧
       (c.finish_move).shapes = c.shapes)) ∧
    (∀ (c : Canvas) (s : BoundingBox) (cls : ℕ), c.drawing = true →
      c.current_shape = some s → c.current_class = some cls →
      c.undo_stack.length < c.max_stack_size →
      ((c.finish_drawing).undo_stack = (Canvas.copy_shapes c.shapes c.next_id).1 :: c.undo_stack ∧
       (c.finish_drawing).redo_stack = [] ∧
       (c.finish_drawing).shapes = c.shapes ++ [Shape.box { s with class_id := some cls }] ∧
       (((c.finish_drawing).undo).1.shapes).map Shape.strip = c.shapes.map Shape.strip)) ∧
    (∀ c : Canvas, c.drag_copy = true → c.drag_copy_shape.isSome = true →
      c.undo_stack.length < c.max_stack_size →
      (((c.finish_drag_copy).1).undo_stack = (Canvas.copy_shapes c.shapes c.next_id).1 :: c.undo_stack ∧
       ((c.finish_drag_copy).1).redo_stack = [] ∧
       ((c.finish_drag_copy).1).shapes = c.shapes)) := by
  refine ⟨?_, ?_, ?_, ?_⟩
  · intro c h1 h2 h3 h4 h5 h6 h7
    simp only [Canvas.mouse_release_left, h1, h2, h3, h4, h5, h6, h7,
      Bool.false_eq_true, if_false, Option.isSome_none, Bool.false_eq_true,
      and_false, if_true, if_false]
    cases hs : c.selected_shape with
    | none => simp
    | some i =>
      cases hg : c.shapes[i]? with
      | none => simp [hs, hg]
      | some s => simp [hs, hg]
  · intro c h1 h2 hlen
    have hcond : c.moving ∧ c.selected_shape.isSome := by
      rw [h1, h2]; exact ⟨rfl, rfl⟩
    have htrim : ¬ (((Canvas.copy_shapes c.shapes c.next_id).1 :: c.undo_stack).length >
        c.max_stack_size) := by
      simp only [List.length_cons]
      omega
    have hsave : c.save_state =
        { c with
            undo_stack := (Canvas.copy_shapes c.shapes c.next_id).1 :: c.undo_stack
            redo_stack := []
            next_id := (Canvas.copy_shapes c.shapes c.next_id).2 } := by
      simp only [Canvas.save_state]
      rw [if_neg htrim]
    simp [Canvas.finish_move, hcond, hsave]
  · intro c s cls h1 h2 h3 hlen
    have htrim : ¬ (((Canvas.copy_shapes c.shapes c.next_id).1 :: c.undo_stack).length >
        c.max_stack_size) := by
      simp only [List.length_cons]
      omega
    have hsave : c.save_state =
        { c with
            undo_stack := (Canvas.copy_shapes c.shapes c.next_id).1 :: c.undo_stack
            redo_stack := []
            next_id := (Canvas.copy_shapes c.shapes c.next_id).2 } := by
      simp only [Canvas.save_state]
      rw [if_neg htrim]
    refine ⟨?_, ?_, ?_, ?_⟩ <;>
      simp [Canvas.finish_drawing, h1, h2, h3, hsave, Canvas.undo, copy_shapes_strip]
  · intro c h1 h2 hlen
    have hcond : c.drag_copy ∧ c.drag_copy_shape.isSome := by
      rw [h1, h2]; exact ⟨rfl, rfl⟩
    have htrim : ¬ (((Canvas.copy_shapes c.shapes c.next_id).1 :: c.undo_stack).length >
        c.max_stack_size) := by
      simp only [List.length_cons]
      omega
    have hsave : c.save_state =
        { c with
            undo_stack := (Canvas.copy_shapes c.shapes c.next_id).1 :: c.undo_stack
            redo_stack := []
            next_id := (Canvas.copy_shapes c.shapes c.next_id).2 } := by
      simp only [Canvas.save_state]
      rw [if_neg htrim]
    simp [Canvas.finish_drag_copy, hcond, hsave]

/-- Concrete canvases for the C2 witness. -/
def c2w_resize : Canvas := { resizing := true }

def c2w_move : Canvas :=
  { moving := true, selected_shape := some 0, shapes := [Shape.box { id := 0 }] }

def c2w_draw : Canvas :=
  { drawing := true, current_shape := some { id := 0 }, current_class := some 7 }

def c2w_drag : Canvas :=
  { drag_copy := true, drag_copy_shape := some 0, shapes := [Shape.circle { id := 0 }] }

/-- Witness for C2 as amended, at small concrete canvases: a resize
release leaves the stacks alone; a move commit pushes the post-move
snapshot; a draw commit pushes the pre-append snapshot and undoes back to
it; a drag-copy commit pushes the post-insertion snapshot. -/
theorem C2_amended_witness :
    ((c2w_resize.mouse_release_left).undo_stack = [] ∧
     (c2w_resize.mouse_release_left).redo_stack = []) ∧
    ((c2w_move.finish_move).undo_stack = (Canvas.copy_shapes c2w_move.shapes 0).1 :: [] ∧
     (c2w_move.finish_move).shapes = [Shape.box { id := 0 }]) ∧
    ((c2w_draw.finish_drawing).undo_stack = [[]] ∧
     (c2w_draw.finish_drawing).shapes = [Shape.box { id := 0, class_id := some 7 }]) ∧
    (((c2w_drag.finish_drag_copy).1).undo_stack =
      (Canvas.copy_shapes c2w_drag.shapes 0).1 :: []) := by
  refine ⟨?_, ?_, ?_, ?_⟩
  · exact C2_amended.1 c2w_resize rfl rfl rfl rfl rfl rfl rfl
  · have h := C2_amended.2.1 c2w_move rfl rfl (by norm_num [c2w_move])
    exact ⟨h.1, h.2.2⟩
  · have h := C2_amended.2.2.1 c2w_draw { id := 0 } 7 rfl rfl rfl (by norm_num [c2w_draw])
    refine ⟨?_, ?_⟩
    · have h1 := h.1
      simpa [c2w_draw, Canvas.copy_shapes] using h1
    · have h2 := h.2.2.1
      simpa [c2w_draw] using h2
  · have h := C2_amended.2.2.2 c2w_drag rfl rfl (by norm_num [c2w_drag])
    exact h.1

/-! ### C5 -/

set_option maxHeartbeats 2000000 in
/-- Counterexample for C5: draw box A ((16,16)-(48,48)) and box B
((80,80)-(112,112)) on a fresh 128×128 canvas (ids 0 and 1), undo, redo.
After the redo the second shape's id is 4, not its pre-undo id 1: the undo
pushed a `copy()` snapshot of the live collection onto the redo stack, and
copies draw fresh ids. -/
theorem C5_cex :
    (let c0 : Canvas := { image_width := 128, image_height := 128, current_class := some 0 }
     let c1 := ((c0.start_drawing (16, 16)).update_drawing (48, 48)).finish_drawing
     let c2 := ((c1.start_drawing (80, 80)).update_drawing (112, 112)).finish_drawing
     let c3 := (c2.undo).1
     let c4 := (c3.redo).1
     (c2.shapes.get? 1).map Shape.id = some 1 ∧
     (c4.shapes.get? 1).map Shape.id = some 4 ∧
     ¬ (c4.shapes.get? 1).map Shape.id = (c2.shapes.get? 1).map Shape.id) := by
  norm_num [Canvas.start_drawing, Canvas.update_drawing, Canvas.finish_drawing,
    Canvas.force_reset_for_drawing, Canvas.widget_to_image, Canvas.save_state,
    Canvas.copy_shapes, Canvas.undo, Canvas.redo, Shape.copy, Shape.id,
    BoundingBox.copy, BoundingBox.from_pixels]

set_option maxHeartbeats 2000000 in
/-- C5 as amended: for any two consecutive box-draw gestures on a fresh
canvas, one undo leaves a single shape with A's geometry (up to the
regenerated id) and one redo restores both geometries — but every shape id
in the restored collections is freshly generated by the snapshot copies:
with the id counter starting at `n`, B's pre-undo id is `n+1` while its
post-redo id is `n+4`. -/
theorem C5_amended (W H : ℤ) (cls n : ℕ) (p1 p2 q1 q2 : ℤ × ℤ) :
    (let c0 : Canvas := { image_width := W, image_height := H,
                          current_class := some cls, next_id := n }
     let c1 := ((c0.start_drawing p1).update_drawing p2).finish_drawing
     let c2 := ((c1.start_drawing q1).update_drawing q2).finish_drawing
     let c3 := (c2.undo).1
     let c4 := (c3.redo).1
     c3.shapes.map Shape.strip = c1.shapes.map Shape.strip ∧
     c4.shapes.map Shape.strip = c2.shapes.map Shape.strip ∧
     c3.shapes.length = 1 ∧ c4.shapes.length = 2 ∧
     (c2.shapes.get? 1).map Shape.id = some (n + 1) ∧
     (c4.shapes.get? 1).map Shape.id = some (n + 4) ∧
     ¬ (c4.shapes.get? 1).map Shape.id = (c2.shapes.get? 1).map Shape.id) := by
  norm_num [Canvas.start_drawing, Canvas.update_drawing, Canvas.finish_drawing,
    Canvas.force_reset_for_drawing, Canvas.widget_to_image, Canvas.save_state,
    Canvas.copy_shapes, Canvas.undo, Canvas.redo, Shape.copy, Shape.id,
    Shape.strip, BoundingBox.copy, BoundingBox.from_pixels]
  omega

/-! ### C6 -/

/-- Snapshot copies keep the `selected` flag of circle, ellipse and
polygon shapes, and reset it only for boxes. -/
theorem copy_shapes_selected (l : List Shape) (n : ℕ) :
    ((Canvas.copy_shapes l n).1).map Shape.selected =
      l.map (fun s => match s with | Shape.box _ => false | _ => s.selected) := by
  induction l generalizing n with
  | nil => rfl
  | cons s rest ih =>
    simp only [Canvas.copy_shapes, List.map_cons, ih]
    congr 1
    cases s <;> rfl

theorem int_sqrt_400 : Canvas.int_sqrt 400 = 20 := by
  unfold Canvas.int_sqrt
  rw [show ((400 : ℤ).toNat) = 20 * 20 by decide, Nat.sqrt_eq]
  norm_num

set_option maxHeartbeats 2000000 in
/-- Counterexample for C6: draw a circle (center (64,64), radius 20) on a
128×128 canvas, select it, move it, release (committing the move pushes a
snapshot whose circle copy keeps `selected = true`), then undo.  The undo
succeeds and clears the selected-shape reference, but the restored
collection contains a shape with `selected == true`. -/
theorem C6_cex :
    (let c0 : Canvas := { image_width := 128, image_height := 128,
                          current_class := some 0, current_shape_type := "circle" }
     let c := ((c0.mouse_press_left (64, 64) false).mouse_move (84, 64)).mouse_release_left
     let c := c.mouse_press_left (64, 64) false
     let c := ((c.mouse_press_left (64, 64) false).mouse_move (96, 64)).mouse_release_left
     let r := c.undo
     r.2 = true ∧ r.1.shapes.map Shape.selected = [true] ∧ r.1.selected_shape = none) := by
  norm_num [Canvas.mouse_press_left, Canvas.mouse_move, Canvas.mouse_release_left,
    Canvas.widget_to_image, Canvas.find_last_hit, Canvas.get_resize_handle_at_pos,
    Canvas.find_handle, Canvas.select_shape, Canvas.start_circle_drawing,
    Canvas.update_circle_drawing, Canvas.finish_circle, Canvas.start_move,
    Canvas.update_move, Canvas.finish_move, Canvas.save_state,
    Canvas.copy_shapes, Canvas.force_reset_for_drawing, Canvas.undo,
    Canvas.start_drawing, Canvas.update_drawing, Canvas.finish_drawing,
    Canvas.start_drag_copy, Canvas.update_drag_copy, Canvas.finish_drag_copy,
    Canvas.start_ellipse_drawing, Canvas.update_ellipse_drawing, Canvas.finish_ellipse,
    Canvas.move_by, int_sqrt_400,
    Shape.contains_point, Shape.get_resize_handles, Shape.begin_resize,
    Shape.clear_resize_origin, Shape.resize_from_handle, Shape.set_selected,
    Shape.selected, Shape.copy,
    CircleShape.contains_point, CircleShape.to_pixels, CircleShape.from_pixels,
    CircleShape.get_resize_handles, CircleShape.begin_resize, CircleShape.copy,
    show ((8 : ℤ).fdiv 2 = 4) by decide]

/-- C6 as amended: after every successful undo or redo the selected-shape
reference is cleared, but the restored collection is the stored snapshot
verbatim — and since snapshot copies preserve the `selected` flag of
circle, ellipse and polygon shapes (resetting only boxes), a restored
snapshot can contain shapes still marked selected. -/
theorem C6_amended :
    (∀ (c : Canvas) (st : List Shape) (rest : List (List Shape)),
      c.undo_stack = st :: rest →
      ((c.undo).2 = true ∧ (c.undo).1.selected_shape = none ∧ (c.undo).1.shapes = st)) ∧
    (∀ (c : Canvas) (st : List Shape) (rest : List (List Shape)),
      c.redo_stack = st :: rest →
      ((c.redo).2 = true ∧ (c.redo).1.selected_shape = none ∧ (c.redo).1.shapes = st)) ∧
    (∀ (l : List Shape) (n : ℕ),
      ((Canvas.copy_shapes l n).1).map Shape.selected =
        l.map (fun s => match s with | Shape.box _ => false | _ => s.selected)) := by
  refine ⟨?_, ?_, ?_⟩
  · intro c st rest h
    simp [Canvas.undo, h]
  · intro c st rest h
    simp [Canvas.redo, h]
  · exact copy_shapes_selected

/-- Witness for C6 as amended: undoing a canvas whose stored snapshot
holds a still-selected circle restores that snapshot verbatim (selected
flag included) while clearing the selection reference. -/
theorem C6_amended_witness :
    (let c : Canvas := { undo_stack := [[Shape.circle { id := 0, selected := true }]] }
     (c.undo).2 = true ∧ (c.undo).1.selected_shape = none ∧
     (c.undo).1.shapes = [Shape.circle { id := 0, selected := true }]) ∧
    ((Canvas.copy_shapes [Shape.circle { id := 0, selected := true }] 5).1).map Shape.selected =
      [Shape.circle { id := 0, selected := true }].map
        (fun s => match s with | Shape.box _ => false | _ => s.selected) := by
  refine ⟨?_, ?_⟩
  · exact C6_amended.1 { undo_stack := [[Shape.circle { id := 0, selected := true }]] }
      [Shape.circle { id := 0, selected := true }] [] rfl
  · exact C6_amended.2.2 [Shape.circle { id := 0, selected := true }] 5

/-! ### C1 -/

set_option maxHeartbeats 2000000 in
/-- C1, evaluated at a failing input: the single-selection invariant is
violated by the drag-copy entry path.  Draw box S ((16,16)-(48,48)) and
box T ((80,80)-(112,112)) on a 128×128 canvas, click S to select it, then
Ctrl-press at (96,96) — inside T, away from S's handles.  `start_drag_copy`
deselects only the clicked original T and selects the new clone, leaving
S's `selected` flag set: two shapes are now selected at once, both
mid-gesture and after the release that commits the drag-copy. -/
theorem C1_violation :
    (let c0 : Canvas := { image_width := 128, image_height := 128, current_class := some 0 }
     let c := ((c0.mouse_press_left (16, 16) false).mouse_move (48, 48)).mouse_release_left
     let c := ((c.mouse_press_left (80, 80) false).mouse_move (112, 112)).mouse_release_left
     let c := c.mouse_press_left (32, 32) false
     let c := c.mouse_press_left (96, 96) true
     let cf := c.mouse_release_left
     c.selected_count = 2 ∧ cf.selected_count = 2 ∧ ¬ cf.selected_count ≤ 1) := by
  norm_num [Canvas.mouse_press_left, Canvas.mouse_move, Canvas.mouse_release_left,
    Canvas.widget_to_image, Canvas.find_last_hit, Canvas.get_resize_handle_at_pos,
    Canvas.find_handle, Canvas.select_shape, Canvas.start_drawing,
    Canvas.update_drawing, Canvas.finish_drawing, Canvas.start_move,
    Canvas.update_move, Canvas.finish_move, Canvas.save_state,
    Canvas.copy_shapes, Canvas.force_reset_for_drawing,
    Canvas.start_drag_copy, Canvas.update_drag_copy, Canvas.finish_drag_copy,
    Canvas.start_circle_drawing, Canvas.update_circle_drawing, Canvas.finish_circle,
    Canvas.start_ellipse_drawing, Canvas.update_ellipse_drawing, Canvas.finish_ellipse,
    Canvas.selected_count, Canvas.move_by,
    Shape.contains_point, Shape.get_resize_handles, Shape.begin_resize,
    Shape.clear_resize_origin, Shape.resize_from_handle, Shape.set_selected,
    Shape.selected, Shape.copy,
    BoundingBox.contains_point, BoundingBox.to_pixels, BoundingBox.from_pixels,
    BoundingBox.get_resize_handles, BoundingBox.begin_resize, BoundingBox.copy,
    show ((8 : ℤ).fdiv 2 = 4) by decide]
